import Mathlib

/-!
Verification development for the Jeju travel-schedule recommendation engine
(`recommend_simple.py`).

Modelling conventions of the shallow embedding:

* The MySQL tables (`jeju_tour_spots_info`, `seogwipo_restaurants`,
  `spot_restaurant_map`, `spot_spot_map`, `TRAVELER_PROFILE`,
  `Travel_Schedule`) are modelled as Lean lists of records collected in a
  `Database` value; each SQL query of the source becomes a pure function over
  those lists.  `ORDER BY ... LIMIT k` is modelled as an insertion sort by the
  same key followed by `take`/`head?` (SQL leaves ties unspecified; the list
  order stands in for the engine's tie order).
* Python floats (ratings, coordinates, distances) are modelled as rationals
  `ℚ`; the great-circle function `haversine` itself is modelled separately
  over the reals `ℝ` (its values are transcendental), and the schedule
  pipeline takes the geographic fallback as an explicit function parameter
  `geo : ℚ → ℚ → ℚ → ℚ → ℚ` standing for `haversine` restricted to the
  database's coordinates.  `haversine_nonneg` below justifies the
  non-negativity hypotheses placed on `geo`.
* `random.choice` draws one uniformly random element of a non-empty list; it
  is modelled by an oracle `rng : Nat → Nat` supplying an arbitrary index per
  call site, so every theorem quantifies over all possible random draws.
* Python `None` becomes `Option`; a Python string field that may be `NULL`
  in the database becomes `Option String`, and the source's truthiness tests
  (`if not x`) are translated as the tests for `none` or `some ""`.
-/

/-- Substring test on `List Char`: `listInfix n h` is true iff `n` occurs
contiguously inside `h`.  Models Python's `needle in hay` and SQL
`LIKE CONCAT(chr(37), needle, chr(37))`. -/
def listInfix (needle : List Char) : List Char → Bool
  | [] => needle.isEmpty
  | c :: t => needle.isPrefixOf (c :: t) || listInfix needle t

/-- String containment: models Python's `needle in hay`. -/
def strContains (hay needle : String) : Bool :=
  listInfix needle.toList hay.toList

/-- Lower-casing, models Python's `str.lower()` (identity on the Korean
characters actually used by the data). -/
def strLower (s : String) : String :=
  String.mk (s.toList.map Char.toLower)

/-- Insert into a list sorted by the boolean comparison `le` (used to model
SQL `ORDER BY`). -/
def insertSorted (le : α → α → Bool) (x : α) : List α → List α
  | [] => [x]
  | y :: ys => if le x y then x :: y :: ys else y :: insertSorted le x ys

/-- Insertion sort by the boolean comparison `le`; models SQL `ORDER BY`. -/
def sortByKey (le : α → α → Bool) : List α → List α
  | [] => []
  | x :: xs => insertSorted le x (sortByKey le xs)

/-- Python `set.add` on a set modelled as a duplicate-free list. -/
def addId (l : List Nat) (x : Nat) : List Nat :=
  if x ∈ l then l else x :: l

/-- Row of `jeju_tour_spots_info`. -/
structure Spot where
  id : Nat
  name : String
  category : Option String
  rating : ℚ
  inout_door : String
  lat : ℚ
  lon : ℚ
  review_count : Nat
deriving DecidableEq, Repr

/-- Row of `seogwipo_restaurants`. -/
structure Restaurant where
  id : Nat
  store_name : String
  biz_type : String
  biz_type_detail : String
  rating : ℚ
  lat : ℚ
  lon : ℚ
deriving DecidableEq, Repr

/-- Row of `spot_restaurant_map` (a spot-to-restaurant proximity edge). -/
structure SpotRestEdge where
  spot_id : Nat
  restaurant_id : Nat
  distance_km : Option ℚ
deriving DecidableEq, Repr

/-- Row of `spot_spot_map` (a spot-to-spot proximity edge). -/
structure SpotSpotEdge where
  spot_id_1 : Nat
  spot_id_2 : Nat
  distance_km : Option ℚ
deriving DecidableEq, Repr

/-- Row of `TRAVELER_PROFILE` (only the columns the engine reads). -/
structure TravelerProfile where
  traveler_id : Nat
  duration : Option String
  schedule_preference : Option String
  preferred_style : Option String
  preferred_food : Option String
deriving DecidableEq, Repr

/-- The read-only reference data visible to the engine. -/
structure Database where
  spots : List Spot
  restaurants : List Restaurant
  spotRestMap : List SpotRestEdge
  spotSpotMap : List SpotSpotEdge
  profiles : List TravelerProfile
deriving Repr

/-- Constant `MIN_RATING = 3.5`, the configurable rating floor of the source
(written as an explicit numerator/denominator pair `7/2`). -/
def MIN_RATING : ℚ := ⟨7, 2, by decide, by decide⟩

/-- The `inout_door` values admitted for a weather mode: `"rainy"` restricts
to indoor/mixed, anything else admits indoor/outdoor/mixed
(`_get_all_spots_for_weather` and `_get_neighbor_spots`). -/
def inoutFilter (weather_mode : String) : List String :=
  if weather_mode = "rainy" then ["실내", "복합"] else ["실내", "실외", "복합"]

/-- Weather/rating row filter shared by the two spot queries:
`rating BETWEEN MIN_RATING AND 5.0 AND inout_door IN (...)`. -/
def spotWeatherOk (weather_mode : String) (s : Spot) : Bool :=
  decide (MIN_RATING ≤ s.rating) && decide (s.rating ≤ 5)
    && decide (s.inout_door ∈ inoutFilter weather_mode)

/-- Ordering `ORDER BY rating DESC, review_count DESC` on spots. -/
def spotOrderLe (a b : Spot) : Bool :=
  decide (b.rating < a.rating)
    || (decide (a.rating = b.rating) && decide (b.review_count ≤ a.review_count))

/-- Query `SELECT * FROM TRAVELER_PROFILE WHERE Traveler_ID = %s` + `fetchone`
(`_get_traveler_profile`). -/
def _get_traveler_profile (db : Database) (traveler_id : Nat) : Option TravelerProfile :=
  db.profiles.find? (fun p => decide (p.traveler_id = traveler_id))

/-- Query `SELECT ... FROM jeju_tour_spots_info WHERE id = %s` + `fetchone`
(`_get_spot_by_id`). -/
def _get_spot_by_id (db : Database) (spot_id : Nat) : Option Spot :=
  db.spots.find? (fun s => decide (s.id = spot_id))

/-- Query `SELECT ... FROM seogwipo_restaurants WHERE id = %s` + `fetchone`
(`_get_restaurant_by_id`). -/
def _get_restaurant_by_id (db : Database) (rest_id : Nat) : Option Restaurant :=
  db.restaurants.find? (fun r => decide (r.id = rest_id))

/-- Function `_get_all_spots_for_weather`: the full weather-filtered candidate pool,
ordered by rating then review count. -/
def _get_all_spots_for_weather (db : Database) (weather_mode : String) : List Spot :=
  sortByKey spotOrderLe (db.spots.filter (spotWeatherOk weather_mode))

/-- Comparison of optional distances for `ORDER BY distance_km ASC`
(a `NULL` distance sorts first, as in MySQL ascending order). -/
def optLeQ : Option ℚ → Option ℚ → Bool
  | none, _ => true
  | some _, none => false
  | some a, some b => decide (a ≤ b)

/-- Ordering `ORDER BY s.rating DESC, s.review_count DESC, m.distance_km ASC` used by
the neighbour query; the `Option ℚ` is the edge distance. -/
def neighborOrderLe (a b : Spot × Option ℚ) : Bool :=
  decide (b.1.rating < a.1.rating)
    || (decide (a.1.rating = b.1.rating)
        && (decide (b.1.review_count < a.1.review_count)
            || (decide (a.1.review_count = b.1.review_count)
                && optLeQ a.2 b.2)))

/-- Function `_get_neighbor_spots`: spots joined through `spot_spot_map` edges leaving
`base_spot_id`, with the weather/rating filter, exclusion list, ordering and
`LIMIT`. -/
def _get_neighbor_spots (db : Database) (base_spot_id : Nat) (exclude_ids : List Nat)
    (weather_mode : String) (limit : Nat) : List Spot :=
  let joined := db.spotSpotMap.flatMap (fun m =>
    if decide (m.spot_id_1 = base_spot_id) then
      (db.spots.filter (fun s =>
        decide (s.id = m.spot_id_2) && spotWeatherOk weather_mode s
          && !decide (s.id ∈ exclude_ids))).map (fun s => (s, m.distance_km))
    else [])
  ((sortByKey neighborOrderLe joined).map Prod.fst).take limit

/-- Result row of the meal/cafe queries (`SELECT r.id AS restaurant_id, ...,
m.distance_km` joined through `spot_restaurant_map`). -/
structure RestRow where
  restaurant_id : Nat
  restaurant_name : String
  restaurant_rating : ℚ
  lat : ℚ
  lon : ℚ
  distance_km : Option ℚ
deriving DecidableEq, Repr

/-- Ordering `ORDER BY r.rating DESC, m.distance_km ASC` on joined restaurant rows. -/
def restOrderLe (a b : RestRow) : Bool :=
  decide (b.restaurant_rating < a.restaurant_rating)
    || (decide (a.restaurant_rating = b.restaurant_rating)
        && optLeQ a.distance_km b.distance_km)

/-- The join of `spot_restaurant_map` with `seogwipo_restaurants` for one
spot, restricted to one `biz_type`, the exclusion list, and (when `keywords`
is non-empty) the `biz_type_detail LIKE` keyword disjunction — the shared
body of the two tiers of `_get_restaurant_for_spot` / `_get_cafe_for_spot`. -/
def restJoinRows (db : Database) (spot_id : Nat) (biz : String)
    (exclude_ids : List Nat) (keywords : List String) : List RestRow :=
  db.spotRestMap.flatMap (fun m =>
    if decide (m.spot_id = spot_id) then
      ((db.restaurants.filter (fun r =>
        decide (r.id = m.restaurant_id) && decide (r.biz_type = biz)
          && !decide (r.id ∈ exclude_ids)
          && (decide (keywords = [])
              || keywords.any (fun kw => strContains r.biz_type_detail kw)))).map
        (fun r => ⟨r.id, r.store_name, r.rating, r.lat, r.lon, m.distance_km⟩))
    else [])

/-- The `keyword_map` dictionary of `_get_restaurant_for_spot`: an exact
lookup of the whole `Preferred_Food` text (Python `dict.get`, default `[]`).
Note there is no cafe row here (the source comment excludes it). -/
def keyword_map_meal (preferred_food : Option String) : List String :=
  if preferred_food = some "한식 위주 음식" then ["한식"]
  else if preferred_food = some "일식 위주 음식" then ["일식"]
  else if preferred_food = some "중식 위주 음식" then ["중식"]
  else if preferred_food = some "해산물 위주 음식" then ["해산물", "횟집", "생선"]
  else []

/-- Function `_get_restaurant_for_spot`: pick one general-eatery (`일반음식점`)
restaurant near the spot; first with the food-preference keyword filter,
then (if that yields nothing) without it; both tiers exclude used ids. -/
def _get_restaurant_for_spot (db : Database) (spot_id : Nat)
    (preferred_food : Option String) (exclude_ids : List Nat) : Option RestRow :=
  match (sortByKey restOrderLe
      (restJoinRows db spot_id "일반음식점" exclude_ids
        (keyword_map_meal preferred_food))).head? with
  | some row => some row
  | none =>
    (sortByKey restOrderLe
      (restJoinRows db spot_id "일반음식점" exclude_ids [])).head?

/-- The fixed cafe keyword list of `_get_cafe_for_spot`. -/
def cafe_keywords : List String := ["카페", "커피"]

/-- Function `_get_cafe_for_spot`: pick one rest-eatery (`휴게음식점`) near the spot;
first with the cafe/coffee keyword filter, then without it; both tiers
exclude used ids. -/
def _get_cafe_for_spot (db : Database) (spot_id : Nat)
    (exclude_ids : List Nat) : Option RestRow :=
  match (sortByKey restOrderLe
      (restJoinRows db spot_id "휴게음식점" exclude_ids cafe_keywords)).head? with
  | some row => some row
  | none =>
    (sortByKey restOrderLe
      (restJoinRows db spot_id "휴게음식점" exclude_ids [])).head?

/-- The `spot_restaurant_map` edge lookup of
`_calc_distance_spot_to_restaurant` (`fetchone`, then the `distance_km`
column, which may itself be `NULL`). -/
def edgeSR (db : Database) (spot_id restaurant_id : Nat) : Option ℚ :=
  match db.spotRestMap.find? (fun m =>
      decide (m.spot_id = spot_id) && decide (m.restaurant_id = restaurant_id)) with
  | some m => m.distance_km
  | none => none

/-- Function `_calc_distance_spot_to_restaurant`: precomputed edge distance when
present, else great-circle distance of the two entities' coordinates, else
`none` when either entity is missing.  `geo` stands for `haversine`. -/
def _calc_distance_spot_to_restaurant (geo : ℚ → ℚ → ℚ → ℚ → ℚ) (db : Database)
    (spot_id restaurant_id : Nat) : Option ℚ :=
  match edgeSR db spot_id restaurant_id with
  | some d => some d
  | none =>
    match _get_spot_by_id db spot_id with
    | none => none
    | some s =>
      match _get_restaurant_by_id db restaurant_id with
      | none => none
      | some r => some (geo s.lat s.lon r.lat r.lon)

/-- Function `_calc_distance_restaurant_to_spot`: delegates to the spot→restaurant
direction assuming distance symmetry. -/
def _calc_distance_restaurant_to_spot (geo : ℚ → ℚ → ℚ → ℚ → ℚ) (db : Database)
    (restaurant_id spot_id : Nat) : Option ℚ :=
  _calc_distance_spot_to_restaurant geo db spot_id restaurant_id

/-- The `spot_spot_map` edge lookup of `_calc_distance_spot_to_spot`
(either orientation of the pair). -/
def edgeSS (db : Database) (a b : Nat) : Option ℚ :=
  match db.spotSpotMap.find? (fun m =>
      (decide (m.spot_id_1 = a) && decide (m.spot_id_2 = b))
        || (decide (m.spot_id_1 = b) && decide (m.spot_id_2 = a))) with
  | some m => m.distance_km
  | none => none

/-- Function `_calc_distance_spot_to_spot`: `0.0` immediately for equal ids, else the
precomputed edge (either orientation) when present, else coordinates, else
`none` when a spot is missing. -/
def _calc_distance_spot_to_spot (geo : ℚ → ℚ → ℚ → ℚ → ℚ) (db : Database)
    (spot_id_1 spot_id_2 : Nat) : Option ℚ :=
  if spot_id_1 = spot_id_2 then some 0
  else
    match edgeSS db spot_id_1 spot_id_2 with
    | some d => some d
    | none =>
      match _get_spot_by_id db spot_id_1 with
      | none => none
      | some s1 =>
        match _get_spot_by_id db spot_id_2 with
        | none => none
        | some s2 => some (geo s1.lat s1.lon s2.lat s2.lon)

/-- Function `_calc_distance_restaurant_to_restaurant`: `0.0` for equal ids, else
coordinates only (no edge table exists for this pairing), else `none` when a
restaurant is missing. -/
def _calc_distance_restaurant_to_restaurant (geo : ℚ → ℚ → ℚ → ℚ → ℚ)
    (db : Database) (rest_id_1 rest_id_2 : Nat) : Option ℚ :=
  if rest_id_1 = rest_id_2 then some 0
  else
    match _get_restaurant_by_id db rest_id_1 with
    | none => none
    | some r1 =>
      match _get_restaurant_by_id db rest_id_2 with
      | none => none
      | some r2 => some (geo r1.lat r1.lon r2.lat r2.lon)

/-- One schedule entry (the Python dict appended to `day_items`); the step
kind is the literal string `"spot"`, `"restaurant"` or `"cafe"` as in the
source. -/
structure Item where
  day : Nat
  order : Nat
  type : String
  spot_id : Option Nat
  spot_name : Option String
  restaurant_id : Option Nat
  restaurant_name : Option String
  rating : ℚ
  distance_km : Option ℚ
deriving DecidableEq, Repr

/-- Replace only the `distance_km` field of an item (the in-place update of
`_fill_distances_for_day`). -/
def setDist (i : Item) (d : Option ℚ) : Item :=
  ⟨i.day, i.order, i.type, i.spot_id, i.spot_name, i.restaurant_id,
    i.restaurant_name, i.rating, d⟩

/-- The `is_restaurant` helper of `_calc_leg_distance`: meal restaurants and
cafes are both treated as the eatery kind. -/
def is_restaurant_kind (t : String) : Bool :=
  decide (t = "restaurant") || decide (t = "cafe")

/-- Function `_calc_leg_distance`: dispatch the previous→current leg to one of the
four pairings by the two step kinds.  A missing id (never produced by the
builder) makes the underlying query match nothing, hence `none`, exactly as
passing Python `None` into the SQL would. -/
def _calc_leg_distance (geo : ℚ → ℚ → ℚ → ℚ → ℚ) (db : Database)
    (prev cur : Item) : Option ℚ :=
  if decide (prev.type = "spot") && is_restaurant_kind cur.type then
    match prev.spot_id, cur.restaurant_id with
    | some sid, some rid => _calc_distance_spot_to_restaurant geo db sid rid
    | _, _ => none
  else if is_restaurant_kind prev.type && decide (cur.type = "spot") then
    match prev.restaurant_id, cur.spot_id with
    | some rid, some sid => _calc_distance_restaurant_to_spot geo db rid sid
    | _, _ => none
  else if decide (prev.type = "spot") && decide (cur.type = "spot") then
    match prev.spot_id, cur.spot_id with
    | some a, some b => _calc_distance_spot_to_spot geo db a b
    | _, _ => none
  else if is_restaurant_kind prev.type && is_restaurant_kind cur.type then
    match prev.restaurant_id, cur.restaurant_id with
    | some a, some b => _calc_distance_restaurant_to_restaurant geo db a b
    | _, _ => none
  else none

/-- The walking loop of `_fill_distances_for_day`: the first item gets a
`none` distance, every later item the leg distance from its predecessor. -/
def fillWalk (geo : ℚ → ℚ → ℚ → ℚ → ℚ) (db : Database) :
    Option Item → List Item → List Item
  | _, [] => []
  | none, i :: rest =>
    let i' := setDist i none
    i' :: fillWalk geo db (some i') rest
  | some p, i :: rest =>
    let i' := setDist i (_calc_leg_distance geo db p i)
    i' :: fillWalk geo db (some i') rest

/-- Function `_fill_distances_for_day`: sort a day's items by `order`, then fill each
`distance_km` from the immediately preceding item of the same day. -/
def _fill_distances_for_day (geo : ℚ → ℚ → ℚ → ℚ → ℚ) (db : Database)
    (day_items : List Item) : List Item :=
  fillWalk geo db none
    (sortByKey (fun a b => decide (a.order ≤ b.order)) day_items)

/-- The `style_keyword_map` dictionary local to `match_style`. -/
def style_keyword_map (g : String) : List String :=
  if g = "문화" then ["문화", "역사", "박물관", "전시", "유적", "전통", "예술"]
  else if g = "자연" then ["자연", "산", "계곡", "바다", "해변", "오름", "숲", "공원", "폭포"]
  else if g = "액티비티" then ["체험", "레저", "액티비티", "카트", "서핑", "승마", "스포츠"]
  else if g = "휴양" then ["휴양", "스파", "온천", "리조트", "펜션"]
  else []

/-- The `match_style` helper of `_choose_next_spot`: derive a style group
from the free-text preference (first marker wins), then match the group's
keyword list against the candidate's category text, case-insensitively.  A
`None` or empty preference never matches. -/
def match_style (style_pref : Option String) (s : Spot) : Bool :=
  match style_pref with
  | none => false
  | some sp =>
    if sp = "" then false
    else
      let style_group : Option String :=
        if strContains sp "문화" then some "문화"
        else if strContains sp "자연" then some "자연"
        else if strContains sp "액티비티" || strContains sp "체험" then some "액티비티"
        else if strContains sp "휴양" || strContains sp "휴식" then some "휴양"
        else none
      match style_group with
      | none => false
      | some g =>
        let keywords := style_keyword_map g
        if keywords.isEmpty then false
        else
          let category_text := strLower (s.category.getD "")
          keywords.any (fun kw => strContains category_text (strLower kw))

/-- Python's `[s for s in spots if s.id not in used_spot_ids]` (the `usable`
helper of `_choose_next_spot`). -/
def usableSpots (used_spot_ids : List Nat) (spots : List Spot) : List Spot :=
  spots.filter (fun s => !decide (s.id ∈ used_spot_ids))

/-- The `pick_with_priority` helper: find the first predicate with a
non-empty candidate list and draw one random element from it (`r` is the
random index supplied by the oracle). -/
def pick_with_priority (r : Nat) (spots : List Spot) :
    List (Spot → Bool) → Option Spot
  | [] => none
  | pred :: preds =>
    let cand := spots.filter pred
    if cand.isEmpty then pick_with_priority r spots preds
    else cand.get? (r % cand.length)

/-- Function `_choose_next_spot`: with a base spot, try its neighbours
(style-matching first, then any), falling back to the global usable pool;
without a base spot, use the global pool directly.  `r1`/`r2` are the random
draws of the (up to two) `random.choice` calls. -/
def _choose_next_spot (db : Database) (r1 r2 : Nat) (all_spots : List Spot)
    (used_spot_ids : List Nat) (style_pref : Option String)
    (weather_mode : String) (base_spot_id : Option Nat) : Option Spot :=
  let all_usable := usableSpots used_spot_ids all_spots
  match base_spot_id with
  | some base =>
    let neighbors := _get_neighbor_spots db base used_spot_ids weather_mode 50
    let neigh_usable := usableSpots used_spot_ids neighbors
    match pick_with_priority r1 neigh_usable
        [fun s => match_style style_pref s, fun _ => true] with
    | some c => some c
    | none =>
      pick_with_priority r2 all_usable
        [fun s => match_style style_pref s, fun _ => true]
  | none =>
    pick_with_priority r1 all_usable
      [fun s => match_style style_pref s, fun _ => true]

/-- The duration heuristic of `generate_schedule_for_weather`: start at 1,
set 2 when the text contains `"3일"`, then set 3 when it contains `"4일"`
(the `"4일"` test runs second and wins when both occur), floor at 1. -/
def nightsOf (duration_text : String) : Nat :=
  let n1 : Nat := 1
  let n2 : Nat := if strContains duration_text ("3일") then 2 else n1
  let n3 : Nat := if strContains duration_text ("4일") then 3 else n2
  max 1 n3

/-- The profile override of the pacing preference: a stored
`Schedule_Preference` replaces the request argument when truthy
(`if schedule_pref_db:` — `None` and the empty string are both falsy). -/
def effectiveSchedulePref (stored arg : Option String) : Option String :=
  match stored with
  | some s => if s = "" then arg else some s
  | none => arg

/-- The fixed per-day step pattern chosen by the pacing preference:
`"빼곡한 일정 선호"` (the packed preference literal) selects the 7-step
pattern, anything else the 5-step pattern. -/
def patternFor (schedule_pref : Option String) : List String :=
  if schedule_pref = some "빼곡한 일정 선호" then
    ["spot", "restaurant", "cafe", "spot", "spot", "restaurant", "spot"]
  else
    ["spot", "restaurant", "cafe", "spot", "restaurant"]

/-- The most recent prior spot step of the current day (the
`for item in reversed(day_items)` scans of the builder). -/
def lastSpotId (items : List Item) : Option Nat :=
  match items.reverse.find? (fun i => decide (i.type = "spot")) with
  | some i => i.spot_id
  | none => none

/-- The item a chosen spot is recorded as. -/
def spotItem (day order : Nat) (s : Spot) : Item :=
  ⟨day, order, "spot", some s.id, some s.name, none, none, s.rating, none⟩

/-- The item a chosen meal restaurant or cafe is recorded as (`t` is
`"restaurant"` or `"cafe"`). -/
def restItem (day order : Nat) (t : String) (row : RestRow) : Item :=
  ⟨day, order, t, none, none, some row.restaurant_id,
    some row.restaurant_name, row.restaurant_rating, none⟩

/-- Index into the random oracle for the step at (day, order); each spot
step may draw up to two random choices (`j ∈ {0, 1}`). -/
def rngIdx (day order j : Nat) : Nat :=
  (day * 16 + order) * 2 + j

/-- The per-day step loop of `generate_schedule_for_weather`: walk the
pattern entries (with their 1-based `order`); a `spot` entry that finds no
candidate breaks out of the day, a `restaurant`/`cafe` entry that finds no
prior spot or no candidate is skipped.  Returns the day's items and the
updated trip-wide used-id sets. -/
def dayLoop (db : Database) (rng : Nat → Nat) (weather_mode : String)
    (style_pref food_pref : Option String) (all_spots : List Spot) (day : Nat) :
    List String → Nat → List Item → List Nat → List Nat →
    List Item × List Nat × List Nat
  | [], _, items, us, ur => (items, us, ur)
  | step_type :: rest, order, items, us, ur =>
    if step_type = "spot" then
      match _choose_next_spot db (rng (rngIdx day order 0)) (rng (rngIdx day order 1))
          all_spots us style_pref weather_mode (lastSpotId items) with
      | none => (items, us, ur)
      | some s =>
        dayLoop db rng weather_mode style_pref food_pref all_spots day
          rest (order + 1) (items ++ [spotItem day order s]) (addId us s.id) ur
    else if step_type = "restaurant" then
      match lastSpotId items with
      | none =>
        dayLoop db rng weather_mode style_pref food_pref all_spots day
          rest (order + 1) items us ur
      | some lsid =>
        match _get_restaurant_for_spot db lsid food_pref ur with
        | none =>
          dayLoop db rng weather_mode style_pref food_pref all_spots day
            rest (order + 1) items us ur
        | some row =>
          dayLoop db rng weather_mode style_pref food_pref all_spots day
            rest (order + 1) (items ++ [restItem day order ("restaurant") row])
            us (addId ur row.restaurant_id)
    else if step_type = "cafe" then
      match lastSpotId items with
      | none =>
        dayLoop db rng weather_mode style_pref food_pref all_spots day
          rest (order + 1) items us ur
      | some lsid =>
        match _get_cafe_for_spot db lsid ur with
        | none =>
          dayLoop db rng weather_mode style_pref food_pref all_spots day
            rest (order + 1) items us ur
        | some row =>
          dayLoop db rng weather_mode style_pref food_pref all_spots day
            rest (order + 1) (items ++ [restItem day order ("cafe") row])
            us (addId ur row.restaurant_id)
    else
      dayLoop db rng weather_mode style_pref food_pref all_spots day
        rest (order + 1) items us ur

/-- The outer day loop of `generate_schedule_for_weather`: run each day's
step loop, fill its distances, and append it to the full schedule (an empty
day appends nothing). -/
def daysLoop (db : Database) (rng : Nat → Nat) (geo : ℚ → ℚ → ℚ → ℚ → ℚ)
    (weather_mode : String) (style_pref food_pref : Option String)
    (all_spots : List Spot) (pattern : List String) :
    List Nat → List Item → List Nat → List Nat → List Item
  | [], full, _, _ => full
  | d :: rest, full, us, ur =>
    let r := dayLoop db rng weather_mode style_pref food_pref all_spots d
      pattern 1 [] us ur
    let full' := if r.1.isEmpty then full
      else full ++ _fill_distances_for_day geo db r.1
    daysLoop db rng geo weather_mode style_pref food_pref all_spots pattern
      rest full' r.2.1 r.2.2

/-- Function `generate_schedule_for_weather`: profile lookup, duration parsing,
pacing-pattern choice, weather-filtered pool, then the day loop.  Unknown
traveler or empty pool yield the empty itinerary. -/
def generate_schedule_for_weather (db : Database) (rng : Nat → Nat)
    (geo : ℚ → ℚ → ℚ → ℚ → ℚ) (traveler_id : Nat) (weather_mode : String)
    (schedule_pref : Option String) : List Item :=
  match _get_traveler_profile db traveler_id with
  | none => []
  | some profile =>
    let duration_text := profile.duration.getD ""
    let eff_pref := effectiveSchedulePref profile.schedule_preference schedule_pref
    let style_pref := profile.preferred_style
    let food_pref := profile.preferred_food
    let nights := nightsOf duration_text
    let all_spots := _get_all_spots_for_weather db weather_mode
    if all_spots.isEmpty then []
    else
      daysLoop db rng geo weather_mode style_pref food_pref all_spots
        (patternFor eff_pref) (List.range' 1 nights) [] [] []

/-- Row of the `Travel_Schedule` table; `visit_date` is the number of days
since a fixed epoch (`today` is passed in the same unit). -/
structure ScheduleRow where
  traveler_id : Nat
  place_id : Option Nat
  restaurant_id : Option Nat
  visit_order : Nat
  visit_date : Int
  weather : String
  distance : ℚ
deriving DecidableEq, Repr

/-- Rounding to 2 decimal places (`round(float(distance_km), 2)`; Python's
float round-half-even is abstracted as nearest-integer rounding of the
scaled value). -/
def round2 (q : ℚ) : ℚ :=
  (round (q * 100) : ℚ) / 100

/-- The row built for one schedule item by `_insert_schedule_rows_into_db`:
visit date `today + day − 1`, the step's order, the place reference for spot
steps and the restaurant reference for meal/cafe steps, and the rounded
distance (`NULL` stored as `0.0`). -/
def rowOfItem (today : Int) (traveler_id : Nat) (weather_mode : String)
    (item : Item) : ScheduleRow :=
  ⟨traveler_id,
    (if item.type = "spot" then item.spot_id else none),
    (if item.type = "restaurant" ∨ item.type = "cafe" then item.restaurant_id else none),
    item.order,
    today + (item.day : Int) - 1,
    weather_mode,
    (match item.distance_km with
     | none => 0
     | some q => round2 q)⟩

/-- Function `_insert_schedule_rows_into_db`: an empty schedule returns 0 at once
(leaving the table untouched); otherwise delete every row of the same
(traveler, weather) pair and insert one row per step.  Returns the new table
and the inserted-row count. -/
def _insert_schedule_rows_into_db (today : Int) (table : List ScheduleRow)
    (traveler_id : Nat) (weather_mode : String) (schedule : List Item) :
    List ScheduleRow × Nat :=
  if schedule.isEmpty then (table, 0)
  else
    let kept := table.filter (fun r =>
      !(decide (r.traveler_id = traveler_id) && decide (r.weather = weather_mode)))
    let newRows := schedule.map (rowOfItem today traveler_id weather_mode)
    (kept ++ newRows, newRows.length)

/-- Python's `math.atan2(y, x)` over the reals (the standard quadrant-aware
arctangent). -/
noncomputable def atan2 (y x : ℝ) : ℝ :=
  if 0 < x then Real.arctan (y / x)
  else if x < 0 ∧ 0 ≤ y then Real.arctan (y / x) + Real.pi
  else if x < 0 ∧ y < 0 then Real.arctan (y / x) - Real.pi
  else if x = 0 ∧ 0 < y then Real.pi / 2
  else if x = 0 ∧ y < 0 then -(Real.pi / 2)
  else 0

/-- Python's `math.radians`: degrees to radians. -/
noncomputable def radians (d : ℝ) : ℝ :=
  d * (Real.pi / 180)

/-- The intermediate quantity `a` of `haversine`:
`sin²(Δφ/2) + cos φ₁ · cos φ₂ · sin²(Δλ/2)`. -/
noncomputable def haversineA (lat1 lon1 lat2 lon2 : ℝ) : ℝ :=
  Real.sin (radians (lat2 - lat1) / 2) ^ 2
    + Real.cos (radians lat1) * Real.cos (radians lat2)
      * Real.sin (radians (lon2 - lon1) / 2) ^ 2

/-- Function `haversine`: great-circle distance in kilometres on a sphere of radius
6371 between two latitude/longitude pairs in degrees
(`c = 2·atan2(√a, √(1−a))`, result `R·c`). -/
noncomputable def haversine (lat1 lon1 lat2 lon2 : ℝ) : ℝ :=
  6371 * (2 * atan2 (Real.sqrt (haversineA lat1 lon1 lat2 lon2))
    (Real.sqrt (1 - haversineA lat1 lon1 lat2 lon2)))

theorem insertSorted_perm (le : α → α → Bool) (x : α) (l : List α) :
    (insertSorted le x l).Perm (x :: l) := by
  induction l with
  | nil => simp [insertSorted]
  | cons y ys ih =>
    cases hxy : le x y with
    | true => simp [insertSorted, hxy]
    | false =>
      simp only [insertSorted, hxy, Bool.false_eq_true, if_false]
      exact (ih.cons y).trans (List.Perm.swap x y ys)

theorem sortByKey_perm (le : α → α → Bool) (l : List α) :
    (sortByKey le l).Perm l := by
  induction l with
  | nil => simp [sortByKey]
  | cons x xs ih =>
    exact (insertSorted_perm le x (sortByKey le xs)).trans (ih.cons x)

theorem mem_sortByKey {le : α → α → Bool} {l : List α} {x : α} :
    x ∈ sortByKey le l ↔ x ∈ l :=
  (sortByKey_perm le l).mem_iff

theorem sortByKey_eq_nil_iff {le : α → α → Bool} {l : List α} :
    sortByKey le l = [] ↔ l = [] := by
  constructor
  · intro h
    have := (sortByKey_perm le l).length_eq
    rw [h] at this
    exact List.length_eq_zero.mp this.symm
  · intro h
    simp [h, sortByKey]

theorem head?_mem {l : List α} {a : α} (h : l.head? = some a) : a ∈ l := by
  cases l with
  | nil => simp at h
  | cons x xs =>
    simp only [List.head?_cons, Option.some.injEq] at h
    exact h ▸ List.mem_cons_self x xs

theorem get?_mod_isSome (l : List α) (h : l ≠ []) (r : Nat) :
    ∃ a, l.get? (r % l.length) = some a ∧ a ∈ l := by
  have hlt : r % l.length < l.length := Nat.mod_lt _ (List.length_pos.mpr h)
  cases hg : l.get? (r % l.length) with
  | none => exact absurd (List.get?_eq_none.mp hg) (Nat.not_le.mpr hlt)
  | some a => exact ⟨a, rfl, List.get?_mem hg⟩

theorem pick_with_priority_nil (r : Nat) (preds : List (Spot → Bool)) :
    pick_with_priority r [] preds = none := by
  induction preds with
  | nil => rfl
  | cons p ps ih => simpa [pick_with_priority] using ih

theorem pick_with_priority_mem {r : Nat} {spots : List Spot} {s : Spot} :
    ∀ {preds : List (Spot → Bool)},
      pick_with_priority r spots preds = some s → s ∈ spots := by
  intro preds
  induction preds with
  | nil => intro h; simp [pick_with_priority] at h
  | cons p ps ih =>
    intro h
    simp only [pick_with_priority] at h
    by_cases he : (spots.filter p).isEmpty
    · exact ih (by simpa [he] using h)
    · rw [if_neg he] at h
      exact List.mem_of_mem_filter (List.get?_mem h)

theorem pick_two_none_iff (r : Nat) (spots : List Spot) (p : Spot → Bool) :
    pick_with_priority r spots [p, fun _ => true] = none ↔ spots = [] := by
  constructor
  · intro h
    by_contra hne
    simp only [pick_with_priority] at h
    by_cases he : (spots.filter p).isEmpty
    · rw [if_pos he] at h
      have hfull : spots.filter (fun _ => true) = spots := List.filter_true spots
      by_cases he2 : (spots.filter (fun _ => true)).isEmpty
      · rw [hfull, List.isEmpty_iff] at he2
        exact hne he2
      · rw [if_neg he2] at h
        obtain ⟨a, hg, _⟩ := get?_mod_isSome (spots.filter (fun _ => true))
          (by rw [hfull]; exact hne) r
        rw [hg] at h
        exact Option.some_ne_none a h
    · rw [if_neg he] at h
      obtain ⟨a, hg, _⟩ := get?_mod_isSome (spots.filter p)
        (by simpa [List.isEmpty_iff] using he) r
      rw [hg] at h
      exact Option.some_ne_none a h
  · intro h
    subst h
    exact pick_with_priority_nil r _

theorem mem_usableSpots {us : List Nat} {l : List Spot} {s : Spot} :
    s ∈ usableSpots us l ↔ s ∈ l ∧ s.id ∉ us := by
  simp [usableSpots, List.mem_filter]

theorem mem_all_spots_for_weather {db : Database} {wm : String} {s : Spot}
    (h : s ∈ _get_all_spots_for_weather db wm) : s ∈ db.spots := by
  unfold _get_all_spots_for_weather at h
  exact List.mem_of_mem_filter (mem_sortByKey.mp h)

theorem mem_neighbor_spots {db : Database} {b : Nat} {excl : List Nat}
    {wm : String} {lim : Nat} {s : Spot}
    (h : s ∈ _get_neighbor_spots db b excl wm lim) :
    s ∈ db.spots ∧ s.id ∉ excl := by
  unfold _get_neighbor_spots at h
  have h1 := List.mem_of_mem_take h
  obtain ⟨pair, hpair, hfst⟩ := List.mem_map.mp h1
  have h2 := mem_sortByKey.mp hpair
  obtain ⟨m, _, hm⟩ := List.mem_flatMap.mp h2
  by_cases hb : decide (m.spot_id_1 = b) = true
  · rw [if_pos hb] at hm
    obtain ⟨sp, hsp, hproj⟩ := List.mem_map.mp hm
    have hmem := List.mem_filter.mp hsp
    have hexcl : ¬(sp.id ∈ excl) := by
      have := hmem.2
      simp only [Bool.and_eq_true, Bool.not_eq_true', decide_eq_false_iff_not] at this
      exact this.2
    have : sp = s := by rw [← hfst, ← hproj]
    exact this ▸ ⟨hmem.1, hexcl⟩
  · rw [if_neg hb] at hm
    simp at hm

theorem restJoinRows_spec {db : Database} {sid : Nat} {biz : String}
    {excl : List Nat} {kws : List String} {row : RestRow}
    (h : row ∈ restJoinRows db sid biz excl kws) :
    row.restaurant_id ∉ excl ∧ ∃ r ∈ db.restaurants, r.id = row.restaurant_id := by
  unfold restJoinRows at h
  obtain ⟨m, _, hm⟩ := List.mem_flatMap.mp h
  by_cases hb : decide (m.spot_id = sid) = true
  · rw [if_pos hb] at hm
    obtain ⟨r, hr, hproj⟩ := List.mem_map.mp hm
    have hmem := List.mem_filter.mp hr
    have hexcl : ¬(r.id ∈ excl) := by
      have := hmem.2
      simp only [Bool.and_eq_true, Bool.not_eq_true', decide_eq_false_iff_not] at this
      exact this.1.2
    have hid : row.restaurant_id = r.id := by rw [← hproj]
    exact ⟨hid ▸ hexcl, r, hmem.1, hid.symm⟩
  · rw [if_neg hb] at hm
    simp at hm

theorem get_restaurant_for_spot_spec {db : Database} {sid : Nat}
    {pf : Option String} {excl : List Nat} {row : RestRow}
    (h : _get_restaurant_for_spot db sid pf excl = some row) :
    row.restaurant_id ∉ excl ∧ ∃ r ∈ db.restaurants, r.id = row.restaurant_id := by
  unfold _get_restaurant_for_spot at h
  cases h1 : (sortByKey restOrderLe
      (restJoinRows db sid "일반음식점" excl (keyword_map_meal pf))).head? with
  | some row1 =>
    rw [h1] at h
    simp only [Option.some.injEq] at h
    subst h
    exact restJoinRows_spec (mem_sortByKey.mp (head?_mem h1))
  | none =>
    rw [h1] at h
    exact restJoinRows_spec (mem_sortByKey.mp (head?_mem h))

theorem get_cafe_for_spot_spec {db : Database} {sid : Nat}
    {excl : List Nat} {row : RestRow}
    (h : _get_cafe_for_spot db sid excl = some row) :
    row.restaurant_id ∉ excl ∧ ∃ r ∈ db.restaurants, r.id = row.restaurant_id := by
  unfold _get_cafe_for_spot at h
  cases h1 : (sortByKey restOrderLe
      (restJoinRows db sid "휴게음식점" excl cafe_keywords)).head? with
  | some row1 =>
    rw [h1] at h
    simp only [Option.some.injEq] at h
    subst h
    exact restJoinRows_spec (mem_sortByKey.mp (head?_mem h1))
  | none =>
    rw [h1] at h
    exact restJoinRows_spec (mem_sortByKey.mp (head?_mem h))

theorem choose_next_spot_spec {db : Database} {r1 r2 : Nat} {all : List Spot}
    {us : List Nat} {sp : Option String} {wm : String} {base : Option Nat}
    {s : Spot}
    (h : _choose_next_spot db r1 r2 all us sp wm base = some s) :
    s.id ∉ us ∧ (s ∈ all ∨ s ∈ db.spots) := by
  unfold _choose_next_spot at h
  cases base with
  | none =>
    have hm := pick_with_priority_mem h
    have := mem_usableSpots.mp hm
    exact ⟨this.2, Or.inl this.1⟩
  | some b =>
    simp only at h
    cases h1 : pick_with_priority r1
        (usableSpots us (_get_neighbor_spots db b us wm 50))
        [fun s => match_style sp s, fun _ => true] with
    | some c =>
      rw [h1] at h
      simp only [Option.some.injEq] at h
      subst h
      have := mem_usableSpots.mp (pick_with_priority_mem h1)
      exact ⟨this.2, Or.inr (mem_neighbor_spots this.1).1⟩
    | none =>
      rw [h1] at h
      have := mem_usableSpots.mp (pick_with_priority_mem h)
      exact ⟨this.2, Or.inl this.1⟩

theorem choose_next_spot_base_none_eq_none_iff {db : Database} {r1 r2 : Nat}
    {all : List Spot} {us : List Nat} {sp : Option String} {wm : String} :
    _choose_next_spot db r1 r2 all us sp wm none = none ↔
      usableSpots us all = [] := by
  unfold _choose_next_spot
  exact pick_two_none_iff r1 (usableSpots us all) _

/-- A spot id that resolves in the reference data. -/
def SpotIdOk (db : Database) (sid : Nat) : Prop :=
  ∃ s ∈ db.spots, s.id = sid

/-- A restaurant id that resolves in the reference data. -/
def RestIdOk (db : Database) (rid : Nat) : Prop :=
  ∃ r ∈ db.restaurants, r.id = rid

/-- Well-formedness of a schedule item as produced by the builder: a spot
step carries a resolvable spot id, a meal/cafe step a resolvable restaurant
id. -/
def ItemWF (db : Database) (i : Item) : Prop :=
  (i.type = "spot" ∧ ∃ sid, i.spot_id = some sid ∧ SpotIdOk db sid)
  ∨ ((i.type = "restaurant" ∨ i.type = "cafe")
      ∧ ∃ rid, i.restaurant_id = some rid ∧ RestIdOk db rid)

theorem get_spot_by_id_isSome {db : Database} {sid : Nat}
    (h : SpotIdOk db sid) : ∃ s, _get_spot_by_id db sid = some s := by
  obtain ⟨s, hs, hid⟩ := h
  have : (_get_spot_by_id db sid).isSome := by
    unfold _get_spot_by_id
    rw [List.find?_isSome]
    exact ⟨s, hs, by simpa using hid⟩
  exact Option.isSome_iff_exists.mp this

theorem get_restaurant_by_id_isSome {db : Database} {rid : Nat}
    (h : RestIdOk db rid) : ∃ r, _get_restaurant_by_id db rid = some r := by
  obtain ⟨r, hr, hid⟩ := h
  have : (_get_restaurant_by_id db rid).isSome := by
    unfold _get_restaurant_by_id
    rw [List.find?_isSome]
    exact ⟨r, hr, by simpa using hid⟩
  exact Option.isSome_iff_exists.mp this

theorem edgeSR_some_mem {db : Database} {sid rid : Nat} {d : ℚ}
    (h : edgeSR db sid rid = some d) :
    ∃ m ∈ db.spotRestMap, m.distance_km = some d := by
  unfold edgeSR at h
  cases hf : db.spotRestMap.find? (fun m =>
      decide (m.spot_id = sid) && decide (m.restaurant_id = rid)) with
  | none => rw [hf] at h; exact absurd h (Option.noConfusion)
  | some m =>
    rw [hf] at h
    exact ⟨m, List.mem_of_find?_eq_some hf, h⟩

theorem edgeSS_some_mem {db : Database} {a b : Nat} {d : ℚ}
    (h : edgeSS db a b = some d) :
    ∃ m ∈ db.spotSpotMap, m.distance_km = some d := by
  unfold edgeSS at h
  cases hf : db.spotSpotMap.find? (fun m =>
      (decide (m.spot_id_1 = a) && decide (m.spot_id_2 = b))
        || (decide (m.spot_id_1 = b) && decide (m.spot_id_2 = a))) with
  | none => rw [hf] at h; exact absurd h (Option.noConfusion)
  | some m =>
    rw [hf] at h
    exact ⟨m, List.mem_of_find?_eq_some hf, h⟩

/-- Non-negativity hypothesis on the stored `spot_restaurant_map` distances. -/
def EdgesSRNonneg (db : Database) : Prop :=
  ∀ m ∈ db.spotRestMap, ∀ q : ℚ, m.distance_km = some q → 0 ≤ q

/-- Non-negativity hypothesis on the stored `spot_spot_map` distances. -/
def EdgesSSNonneg (db : Database) : Prop :=
  ∀ m ∈ db.spotSpotMap, ∀ q : ℚ, m.distance_km = some q → 0 ≤ q

/-- Non-negativity hypothesis on the geographic fallback function. -/
def GeoNonneg (geo : ℚ → ℚ → ℚ → ℚ → ℚ) : Prop :=
  ∀ a b c d : ℚ, 0 ≤ geo a b c d

theorem calcSR_some_nonneg {geo : ℚ → ℚ → ℚ → ℚ → ℚ} {db : Database}
    {sid rid : Nat} (hsr : EdgesSRNonneg db) (hg : GeoNonneg geo)
    (hs : SpotIdOk db sid) (hr : RestIdOk db rid) :
    ∃ q, _calc_distance_spot_to_restaurant geo db sid rid = some q ∧ 0 ≤ q := by
  unfold _calc_distance_spot_to_restaurant
  cases he : edgeSR db sid rid with
  | some d =>
    obtain ⟨m, hm, hd⟩ := edgeSR_some_mem he
    exact ⟨d, rfl, hsr m hm d hd⟩
  | none =>
    obtain ⟨s, hsmem⟩ := get_spot_by_id_isSome hs
    obtain ⟨r, hrmem⟩ := get_restaurant_by_id_isSome hr
    rw [hsmem, hrmem]
    exact ⟨_, rfl, hg _ _ _ _⟩

theorem calcSS_some_nonneg {geo : ℚ → ℚ → ℚ → ℚ → ℚ} {db : Database}
    {a b : Nat} (hss : EdgesSSNonneg db) (hg : GeoNonneg geo)
    (ha : SpotIdOk db a) (hb : SpotIdOk db b) :
    ∃ q, _calc_distance_spot_to_spot geo db a b = some q ∧ 0 ≤ q := by
  unfold _calc_distance_spot_to_spot
  by_cases hab : a = b
  · rw [if_pos hab]
    exact ⟨0, rfl, le_refl 0⟩
  · rw [if_neg hab]
    cases he : edgeSS db a b with
    | some d =>
      obtain ⟨m, hm, hd⟩ := edgeSS_some_mem he
      exact ⟨d, rfl, hss m hm d hd⟩
    | none =>
      obtain ⟨s1, h1⟩ := get_spot_by_id_isSome ha
      obtain ⟨s2, h2⟩ := get_spot_by_id_isSome hb
      rw [h1, h2]
      exact ⟨_, rfl, hg _ _ _ _⟩

theorem calcRR_some_nonneg {geo : ℚ → ℚ → ℚ → ℚ → ℚ} {db : Database}
    {a b : Nat} (hg : GeoNonneg geo)
    (ha : RestIdOk db a) (hb : RestIdOk db b) :
    ∃ q, _calc_distance_restaurant_to_restaurant geo db a b = some q ∧ 0 ≤ q := by
  unfold _calc_distance_restaurant_to_restaurant
  by_cases hab : a = b
  · rw [if_pos hab]
    exact ⟨0, rfl, le_refl 0⟩
  · rw [if_neg hab]
    obtain ⟨r1, h1⟩ := get_restaurant_by_id_isSome ha
    obtain ⟨r2, h2⟩ := get_restaurant_by_id_isSome hb
    rw [h1, h2]
    exact ⟨_, rfl, hg _ _ _ _⟩

theorem calc_leg_some_nonneg {geo : ℚ → ℚ → ℚ → ℚ → ℚ} {db : Database}
    {p c : Item} (hsr : EdgesSRNonneg db) (hss : EdgesSSNonneg db)
    (hg : GeoNonneg geo) (hp : ItemWF db p) (hc : ItemWF db c) :
    ∃ q, _calc_leg_distance geo db p c = some q ∧ 0 ≤ q := by
  unfold _calc_leg_distance
  rcases hp with ⟨hpt, sid, hpsid, hpok⟩ | ⟨hpt, rid, hprid, hpok⟩
  · rcases hc with ⟨hct, sid2, hcsid, hcok⟩ | ⟨hct, rid2, hcrid, hcok⟩
    · -- spot → spot
      simp only [hpt, hct, hpsid, hcsid, is_restaurant_kind]
      simp
      exact calcSS_some_nonneg hss hg hpok hcok
    · -- spot → eatery
      rcases hct with h | h <;>
      · simp only [hpt, h, hpsid, hcrid, is_restaurant_kind]
        simp
        exact calcSR_some_nonneg hsr hg hpok hcok
  · rcases hc with ⟨hct, sid2, hcsid, hcok⟩ | ⟨hct, rid2, hcrid, hcok⟩
    · -- eatery → spot
      rcases hpt with h | h <;>
      · simp only [h, hct, hprid, hcsid, is_restaurant_kind,
          _calc_distance_restaurant_to_spot]
        simp
        exact calcSR_some_nonneg hsr hg hcok hpok
    · -- eatery → eatery
      rcases hpt with h | h <;> rcases hct with h2 | h2 <;>
      · simp only [h, h2, hprid, hcrid, is_restaurant_kind]
        simp
        exact calcRR_some_nonneg hg hpok hcok

@[simp]
theorem setDist_day (i : Item) (d : Option ℚ) : (setDist i d).day = i.day := rfl

@[simp]
theorem setDist_order (i : Item) (d : Option ℚ) : (setDist i d).order = i.order := rfl

@[simp]
theorem setDist_type (i : Item) (d : Option ℚ) : (setDist i d).type = i.type := rfl

@[simp]
theorem setDist_spot_id (i : Item) (d : Option ℚ) :
    (setDist i d).spot_id = i.spot_id := rfl

@[simp]
theorem setDist_restaurant_id (i : Item) (d : Option ℚ) :
    (setDist i d).restaurant_id = i.restaurant_id := rfl

@[simp]
theorem setDist_distance (i : Item) (d : Option ℚ) :
    (setDist i d).distance_km = d := rfl

theorem calc_leg_setDist_right (geo : ℚ → ℚ → ℚ → ℚ → ℚ) (db : Database)
    (p c : Item) (d : Option ℚ) :
    _calc_leg_distance geo db p (setDist c d) = _calc_leg_distance geo db p c := rfl

theorem calc_leg_setDist_left (geo : ℚ → ℚ → ℚ → ℚ → ℚ) (db : Database)
    (p c : Item) (d : Option ℚ) :
    _calc_leg_distance geo db (setDist p d) c = _calc_leg_distance geo db p c := rfl

theorem itemWF_setDist {db : Database} {i : Item} {d : Option ℚ}
    (h : ItemWF db i) : ItemWF db (setDist i d) := by
  unfold ItemWF at h ⊢
  simpa using h

/-- The consecutive-leg property of a day's items seen from a previous item
`p`: each item's stored distance is the leg distance from its immediate
predecessor in the day, and it is a non-negative value. -/
def legChain (geo : ℚ → ℚ → ℚ → ℚ → ℚ) (db : Database) : Item → List Item → Prop
  | _, [] => True
  | p, c :: rest =>
    (c.distance_km = _calc_leg_distance geo db p c
        ∧ ∃ q, c.distance_km = some q ∧ 0 ≤ q)
      ∧ legChain geo db c rest

/-- The per-day distance discipline: the first item of the day stores no
distance, every later item stores the non-negative leg distance from the
immediately preceding item of the same day. -/
def dayStepsOk (geo : ℚ → ℚ → ℚ → ℚ → ℚ) (db : Database) : List Item → Prop
  | [] => True
  | first :: rest => first.distance_km = none ∧ legChain geo db first rest

theorem fillWalk_chain {geo : ℚ → ℚ → ℚ → ℚ → ℚ} {db : Database}
    (hsr : EdgesSRNonneg db) (hss : EdgesSSNonneg db) (hg : GeoNonneg geo) :
    ∀ (l : List Item) (p : Item), ItemWF db p → (∀ i ∈ l, ItemWF db i) →
      legChain geo db p (fillWalk geo db (some p) l) := by
  intro l
  induction l with
  | nil => intro p _ _; simp [fillWalk, legChain]
  | cons i rest ih =>
    intro p hp hl
    have hi : ItemWF db i := hl i (List.mem_cons_self i rest)
    obtain ⟨q, hq, hq0⟩ := calc_leg_some_nonneg hsr hss hg hp hi
    simp only [fillWalk]
    refine ⟨⟨?_, ?_⟩, ?_⟩
    · rw [setDist_distance, calc_leg_setDist_right]
    · exact ⟨q, by rw [setDist_distance]; exact hq, hq0⟩
    · have := ih (setDist i (_calc_leg_distance geo db p i)) (itemWF_setDist hi)
        (fun j hj => hl j (List.mem_cons_of_mem i hj))
      exact this

theorem dayStepsOk_fill {geo : ℚ → ℚ → ℚ → ℚ → ℚ} {db : Database}
    (hsr : EdgesSRNonneg db) (hss : EdgesSSNonneg db) (hg : GeoNonneg geo)
    {items : List Item} (hwf : ∀ i ∈ items, ItemWF db i) :
    dayStepsOk geo db (_fill_distances_for_day geo db items) := by
  unfold _fill_distances_for_day
  have hwf' : ∀ i ∈ sortByKey (fun a b => decide (a.order ≤ b.order)) items,
      ItemWF db i := fun i hi => hwf i (mem_sortByKey.mp hi)
  cases hs : sortByKey (fun a b => decide (a.order ≤ b.order)) items with
  | nil => simp [fillWalk, dayStepsOk]
  | cons j rest =>
    rw [hs] at hwf'
    simp only [fillWalk]
    refine ⟨rfl, ?_⟩
    exact fillWalk_chain hsr hss hg rest (setDist j none)
      (itemWF_setDist (hwf' j (List.mem_cons_self j rest)))
      (fun i hi => hwf' i (List.mem_cons_of_mem j hi))

/-- The spot ids referenced by the spot steps of a schedule. -/
def spotIds (items : List Item) : List Nat :=
  items.filterMap (fun i => if i.type = "spot" then i.spot_id else none)

/-- The restaurant ids referenced by the meal and cafe steps of a schedule
(the two kinds share one exclusion set). -/
def restIds (items : List Item) : List Nat :=
  items.filterMap (fun i =>
    if i.type = "restaurant" ∨ i.type = "cafe" then i.restaurant_id else none)

/-- The day tags of a schedule. -/
def daysOf (items : List Item) : List Nat :=
  items.map Item.day

/-- The steps of one day of a schedule, in their stored relative order. -/
def filterDay (items : List Item) (d : Nat) : List Item :=
  items.filter (fun i => decide (i.day = d))

/-- The used-id bookkeeping invariant of the builder: the spot ids and the
combined meal/cafe restaurant ids of the schedule built so far are
duplicate-free and contained in the respective trip-wide used sets. -/
def UsedInv (items : List Item) (us ur : List Nat) : Prop :=
  (spotIds items).Nodup ∧ (∀ x ∈ spotIds items, x ∈ us)
    ∧ (restIds items).Nodup ∧ (∀ x ∈ restIds items, x ∈ ur)

theorem mem_addId_of_mem {l : List Nat} {x y : Nat} (h : x ∈ l) :
    x ∈ addId l y := by
  unfold addId
  split
  · exact h
  · exact List.mem_cons_of_mem y h

theorem mem_addId_self (l : List Nat) (y : Nat) : y ∈ addId l y := by
  unfold addId
  split
  · assumption
  · exact List.mem_cons_self y l

theorem spotIds_append (l1 l2 : List Item) :
    spotIds (l1 ++ l2) = spotIds l1 ++ spotIds l2 := by
  simp [spotIds, List.filterMap_append]

theorem restIds_append (l1 l2 : List Item) :
    restIds (l1 ++ l2) = restIds l1 ++ restIds l2 := by
  simp [restIds, List.filterMap_append]

theorem spotIds_spotItem (d o : Nat) (s : Spot) :
    spotIds [spotItem d o s] = [s.id] := by
  simp [spotIds, spotItem, List.filterMap]

theorem restIds_spotItem (d o : Nat) (s : Spot) :
    restIds [spotItem d o s] = [] := by
  simp [restIds, spotItem, List.filterMap]

theorem spotIds_restItem (d o : Nat) (t : String) (row : RestRow) :
    spotIds [restItem d o t row] = [] := by
  unfold spotIds restItem List.filterMap
  split <;> simp_all

theorem restIds_restItem (d o : Nat) (t : String) (row : RestRow)
    (ht : t = "restaurant" ∨ t = "cafe") :
    restIds [restItem d o t row] = [row.restaurant_id] := by
  rcases ht with h | h <;> simp [restIds, restItem, List.filterMap, h]

theorem usedInv_nil : UsedInv [] [] [] := by
  simp [UsedInv, spotIds, restIds]

theorem usedInv_snoc_spot {l : List Item} {us ur : List Nat} {d o : Nat}
    {s : Spot} (hinv : UsedInv l us ur) (hfresh : s.id ∉ us) :
    UsedInv (l ++ [spotItem d o s]) (addId us s.id) ur := by
  obtain ⟨h1, h2, h3, h4⟩ := hinv
  have hnotin : s.id ∉ spotIds l := fun hin => hfresh (h2 _ hin)
  refine ⟨?_, ?_, ?_, ?_⟩
  · rw [spotIds_append, spotIds_spotItem]
    simp [List.nodup_append, h1, hnotin]
  · intro x hx
    rw [spotIds_append, spotIds_spotItem] at hx
    rcases List.mem_append.mp hx with hx | hx
    · exact mem_addId_of_mem (h2 x hx)
    · simp at hx
      exact hx ▸ mem_addId_self us s.id
  · rw [restIds_append, restIds_spotItem]
    simpa using h3
  · intro x hx
    rw [restIds_append, restIds_spotItem] at hx
    simp at hx
    exact h4 x hx

theorem usedInv_snoc_rest {l : List Item} {us ur : List Nat} {d o : Nat}
    {t : String} {row : RestRow} (ht : t = "restaurant" ∨ t = "cafe")
    (hinv : UsedInv l us ur) (hfresh : row.restaurant_id ∉ ur) :
    UsedInv (l ++ [restItem d o t row]) us (addId ur row.restaurant_id) := by
  obtain ⟨h1, h2, h3, h4⟩ := hinv
  have hnotin : row.restaurant_id ∉ restIds l := fun hin => hfresh (h4 _ hin)
  refine ⟨?_, ?_, ?_, ?_⟩
  · rw [spotIds_append, spotIds_restItem]
    simpa using h1
  · intro x hx
    rw [spotIds_append, spotIds_restItem] at hx
    simp at hx
    exact h2 x hx
  · rw [restIds_append, restIds_restItem _ _ _ _ ht]
    simp [List.nodup_append, h3, hnotin]
  · intro x hx
    rw [restIds_append, restIds_restItem _ _ _ _ ht] at hx
    rcases List.mem_append.mp hx with hx | hx
    · exact mem_addId_of_mem (h4 x hx)
    · simp at hx
      exact hx ▸ mem_addId_self ur row.restaurant_id

theorem fillWalk_spotIds (geo : ℚ → ℚ → ℚ → ℚ → ℚ) (db : Database) :
    ∀ (l : List Item) (p : Option Item),
      spotIds (fillWalk geo db p l) = spotIds l := by
  intro l
  induction l with
  | nil => intro p; cases p <;> rfl
  | cons i rest ih =>
    intro p
    have ih' : ∀ p' : Option Item,
        List.filterMap (fun j => if j.type = "spot" then j.spot_id else none)
          (fillWalk geo db p' rest)
        = List.filterMap (fun j => if j.type = "spot" then j.spot_id else none)
            rest := fun p' => ih p'
    cases p <;>
      simp only [fillWalk, spotIds, List.filterMap_cons, setDist_type,
        setDist_spot_id] <;>
      cases hit : (if i.type = "spot" then i.spot_id else none) <;>
      simp [hit, ih']

theorem fillWalk_restIds (geo : ℚ → ℚ → ℚ → ℚ → ℚ) (db : Database) :
    ∀ (l : List Item) (p : Option Item),
      restIds (fillWalk geo db p l) = restIds l := by
  intro l
  induction l with
  | nil => intro p; cases p <;> rfl
  | cons i rest ih =>
    intro p
    have ih' : ∀ p' : Option Item,
        List.filterMap
          (fun j => if j.type = "restaurant" ∨ j.type = "cafe" then j.restaurant_id else none)
          (fillWalk geo db p' rest)
        = List.filterMap
            (fun j => if j.type = "restaurant" ∨ j.type = "cafe" then j.restaurant_id else none)
            rest := fun p' => ih p'
    cases p <;>
      simp only [fillWalk, restIds, List.filterMap_cons, setDist_type,
        setDist_restaurant_id] <;>
      cases hit : (if i.type = "restaurant" ∨ i.type = "cafe" then i.restaurant_id else none) <;>
      simp [hit, ih']

theorem fillWalk_daysOf (geo : ℚ → ℚ → ℚ → ℚ → ℚ) (db : Database) :
    ∀ (l : List Item) (p : Option Item),
      daysOf (fillWalk geo db p l) = daysOf l := by
  intro l
  induction l with
  | nil => intro p; cases p <;> rfl
  | cons i rest ih =>
    intro p
    have ih' : ∀ p' : Option Item,
        List.map Item.day (fillWalk geo db p' rest)
        = List.map Item.day rest := fun p' => ih p'
    cases p <;>
      simp [fillWalk, daysOf, List.map_cons, setDist_day, ih']

theorem fill_day_spotIds_perm (geo : ℚ → ℚ → ℚ → ℚ → ℚ) (db : Database)
    (items : List Item) :
    (spotIds (_fill_distances_for_day geo db items)).Perm (spotIds items) := by
  unfold _fill_distances_for_day
  rw [fillWalk_spotIds]
  exact (sortByKey_perm _ items).filterMap _

theorem fill_day_restIds_perm (geo : ℚ → ℚ → ℚ → ℚ → ℚ) (db : Database)
    (items : List Item) :
    (restIds (_fill_distances_for_day geo db items)).Perm (restIds items) := by
  unfold _fill_distances_for_day
  rw [fillWalk_restIds]
  exact (sortByKey_perm _ items).filterMap _

theorem fill_day_daysOf_perm (geo : ℚ → ℚ → ℚ → ℚ → ℚ) (db : Database)
    (items : List Item) :
    (daysOf (_fill_distances_for_day geo db items)).Perm (daysOf items) := by
  unfold _fill_distances_for_day
  rw [fillWalk_daysOf]
  exact (sortByKey_perm _ items).map _

theorem fill_day_day_eq {geo : ℚ → ℚ → ℚ → ℚ → ℚ} {db : Database}
    {items : List Item} {d : Nat} (h : ∀ i ∈ items, i.day = d) :
    ∀ i ∈ _fill_distances_for_day geo db items, i.day = d := by
  intro i hi
  have : i.day ∈ daysOf (_fill_distances_for_day geo db items) :=
    List.mem_map_of_mem Item.day hi
  have := (fill_day_daysOf_perm geo db items).mem_iff.mp this
  obtain ⟨j, hj, hji⟩ := List.mem_map.mp this
  rw [← hji]
  exact h j hj

theorem fill_day_ne_nil {geo : ℚ → ℚ → ℚ → ℚ → ℚ} {db : Database}
    {items : List Item} (h : items ≠ []) :
    _fill_distances_for_day geo db items ≠ [] := by
  intro hc
  have : daysOf (_fill_distances_for_day geo db items) = [] := by
    rw [hc]; rfl
  have hperm := (fill_day_daysOf_perm geo db items)
  rw [this] at hperm
  have : daysOf items = [] := hperm.symm.eq_nil
  have : items = [] := by
    cases items with
    | nil => rfl
    | cons a l => simp [daysOf] at this
  exact h this

theorem dayLoop_spec (db : Database) (rng : Nat → Nat) (wm : String)
    (stp fp : Option String) (all : List Spot) (d : Nat)
    (hall : ∀ s ∈ all, s ∈ db.spots) :
    ∀ (pat : List String) (order : Nat) (items : List Item) (us ur : List Nat),
      (∃ suf, (dayLoop db rng wm stp fp all d pat order items us ur).1 = items ++ suf)
      ∧ (∀ x ∈ us, x ∈ (dayLoop db rng wm stp fp all d pat order items us ur).2.1)
      ∧ (∀ x ∈ ur, x ∈ (dayLoop db rng wm stp fp all d pat order items us ur).2.2)
      ∧ ((∀ i ∈ items, ItemWF db i ∧ i.day = d) →
          ∀ i ∈ (dayLoop db rng wm stp fp all d pat order items us ur).1,
            ItemWF db i ∧ i.day = d)
      ∧ (∀ pre : List Item, UsedInv (pre ++ items) us ur →
          UsedInv (pre ++ (dayLoop db rng wm stp fp all d pat order items us ur).1)
            (dayLoop db rng wm stp fp all d pat order items us ur).2.1
            (dayLoop db rng wm stp fp all d pat order items us ur).2.2) := by
  intro pat
  induction pat with
  | nil =>
    intro order items us ur
    simp only [dayLoop]
    exact ⟨⟨[], by simp⟩, fun x h => h, fun x h => h, fun h => h, fun pre h => h⟩
  | cons step rest ih =>
    intro order items us ur
    simp only [dayLoop]
    by_cases hspot : step = "spot"
    · rw [if_pos hspot]
      cases hc : _choose_next_spot db (rng (rngIdx d order 0)) (rng (rngIdx d order 1))
          all us stp wm (lastSpotId items) with
      | none =>
        simp only [hc]
        exact ⟨⟨[], by simp⟩, fun x h => h, fun x h => h, fun h => h, fun pre h => h⟩
      | some s =>
        simp only [hc]
        obtain ⟨hfresh, hmem⟩ := choose_next_spot_spec hc
        have hsdb : s ∈ db.spots := by
          rcases hmem with h | h
          · exact hall s h
          · exact h
        have hwf_new : ItemWF db (spotItem d order s) :=
          Or.inl ⟨rfl, s.id, rfl, s, hsdb, rfl⟩
        obtain ⟨⟨suf, hsuf⟩, hus, hur, hwf, hinv⟩ :=
          ih (order + 1) (items ++ [spotItem d order s]) (addId us s.id) ur
        refine ⟨⟨[spotItem d order s] ++ suf, ?_⟩, ?_, ?_, ?_, ?_⟩
        · rw [hsuf, List.append_assoc]
        · exact fun x hx => hus x (mem_addId_of_mem hx)
        · exact hur
        · intro hitems i hi
          refine hwf ?_ i hi
          intro j hj
          rcases List.mem_append.mp hj with hj | hj
          · exact hitems j hj
          · simp at hj
            exact hj ▸ ⟨hwf_new, rfl⟩
        · intro pre hpre
          have step1 : UsedInv ((pre ++ items) ++ [spotItem d order s])
              (addId us s.id) ur := usedInv_snoc_spot hpre hfresh
          rw [List.append_assoc] at step1
          exact hinv pre step1
    · rw [if_neg hspot]
      by_cases hrest : step = "restaurant"
      · rw [if_pos hrest]
        cases hl : lastSpotId items with
        | none =>
          simp only [hl]
          exact ih (order + 1) items us ur
        | some lsid =>
          simp only [hl]
          cases hf : _get_restaurant_for_spot db lsid fp ur with
          | none =>
            simp only [hf]
            exact ih (order + 1) items us ur
          | some row =>
            simp only [hf]
            obtain ⟨hfresh, hok⟩ := get_restaurant_for_spot_spec hf
            have hwf_new : ItemWF db (restItem d order ("restaurant") row) :=
              Or.inr ⟨Or.inl rfl, row.restaurant_id, rfl, hok⟩
            obtain ⟨⟨suf, hsuf⟩, hus, hur, hwf, hinv⟩ :=
              ih (order + 1) (items ++ [restItem d order ("restaurant") row])
                us (addId ur row.restaurant_id)
            refine ⟨⟨[restItem d order ("restaurant") row] ++ suf, ?_⟩, ?_, ?_, ?_, ?_⟩
            · rw [hsuf, List.append_assoc]
            · exact hus
            · exact fun x hx => hur x (mem_addId_of_mem hx)
            · intro hitems i hi
              refine hwf ?_ i hi
              intro j hj
              rcases List.mem_append.mp hj with hj | hj
              · exact hitems j hj
              · simp at hj
                exact hj ▸ ⟨hwf_new, rfl⟩
            · intro pre hpre
              have step1 : UsedInv ((pre ++ items) ++ [restItem d order ("restaurant") row])
                  us (addId ur row.restaurant_id) :=
                usedInv_snoc_rest (Or.inl rfl) hpre hfresh
              rw [List.append_assoc] at step1
              exact hinv pre step1
      · rw [if_neg hrest]
        by_cases hcafe : step = "cafe"
        · rw [if_pos hcafe]
          cases hl : lastSpotId items with
          | none =>
            simp only [hl]
            exact ih (order + 1) items us ur
          | some lsid =>
            simp only [hl]
            cases hf : _get_cafe_for_spot db lsid ur with
            | none =>
              simp only [hf]
              exact ih (order + 1) items us ur
            | some row =>
              simp only [hf]
              obtain ⟨hfresh, hok⟩ := get_cafe_for_spot_spec hf
              have hwf_new : ItemWF db (restItem d order ("cafe") row) :=
                Or.inr ⟨Or.inr rfl, row.restaurant_id, rfl, hok⟩
              obtain ⟨⟨suf, hsuf⟩, hus, hur, hwf, hinv⟩ :=
                ih (order + 1) (items ++ [restItem d order ("cafe") row])
                  us (addId ur row.restaurant_id)
              refine ⟨⟨[restItem d order ("cafe") row] ++ suf, ?_⟩, ?_, ?_, ?_, ?_⟩
              · rw [hsuf, List.append_assoc]
              · exact hus
              · exact fun x hx => hur x (mem_addId_of_mem hx)
              · intro hitems i hi
                refine hwf ?_ i hi
                intro j hj
                rcases List.mem_append.mp hj with hj | hj
                · exact hitems j hj
                · simp at hj
                  exact hj ▸ ⟨hwf_new, rfl⟩
              · intro pre hpre
                have step1 : UsedInv ((pre ++ items) ++ [restItem d order ("cafe") row])
                    us (addId ur row.restaurant_id) :=
                  usedInv_snoc_rest (Or.inr rfl) hpre hfresh
                rw [List.append_assoc] at step1
                exact hinv pre step1
        · rw [if_neg hcafe]
          exact ih (order + 1) items us ur

theorem lastSpotId_nil : lastSpotId ([] : List Item) = none := rfl

theorem dayLoop_empty_pool_eq (db : Database) (rng : Nat → Nat) (wm : String)
    (stp fp : Option String) (all : List Spot) (d : Nat) (rest : List String)
    (us ur : List Nat) (h : usableSpots us all = []) :
    dayLoop db rng wm stp fp all d ("spot" :: rest) 1 [] us ur = ([], us, ur) := by
  have hc : _choose_next_spot db (rng (rngIdx d 1 0)) (rng (rngIdx d 1 1))
      all us stp wm (lastSpotId ([] : List Item)) = none := by
    rw [lastSpotId_nil]
    exact choose_next_spot_base_none_eq_none_iff.mpr h
  simp [dayLoop, hc]

theorem dayLoop_nonempty_of_pool (db : Database) (rng : Nat → Nat) (wm : String)
    (stp fp : Option String) (all : List Spot) (d : Nat) (rest : List String)
    (us ur : List Nat) (hall : ∀ s ∈ all, s ∈ db.spots)
    (h : usableSpots us all ≠ []) :
    (dayLoop db rng wm stp fp all d ("spot" :: rest) 1 [] us ur).1 ≠ [] := by
  cases hc : _choose_next_spot db (rng (rngIdx d 1 0)) (rng (rngIdx d 1 1))
      all us stp wm (lastSpotId ([] : List Item)) with
  | none =>
    rw [lastSpotId_nil] at hc
    exact absurd (choose_next_spot_base_none_eq_none_iff.mp hc) h
  | some s =>
    have heq : dayLoop db rng wm stp fp all d ("spot" :: rest) 1 [] us ur
        = dayLoop db rng wm stp fp all d rest 2
            ([] ++ [spotItem d 1 s]) (addId us s.id) ur := by
      simp [dayLoop, hc]
    rw [heq]
    obtain ⟨suf, hsuf⟩ := (dayLoop_spec db rng wm stp fp all d hall rest 2
      ([] ++ [spotItem d 1 s]) (addId us s.id) ur).1
    rw [hsuf]
    simp

theorem dayLoop_empty_state (db : Database) (rng : Nat → Nat) (wm : String)
    (stp fp : Option String) (all : List Spot) (d : Nat) (rest : List String)
    (us ur : List Nat) (hall : ∀ s ∈ all, s ∈ db.spots)
    (h : (dayLoop db rng wm stp fp all d ("spot" :: rest) 1 [] us ur).1 = []) :
    usableSpots us all = []
      ∧ dayLoop db rng wm stp fp all d ("spot" :: rest) 1 [] us ur = ([], us, ur) := by
  cases hc : _choose_next_spot db (rng (rngIdx d 1 0)) (rng (rngIdx d 1 1))
      all us stp wm (lastSpotId ([] : List Item)) with
  | none =>
    constructor
    · rw [lastSpotId_nil] at hc
      exact choose_next_spot_base_none_eq_none_iff.mp hc
    · simp [dayLoop, hc]
  | some s =>
    exfalso
    have heq : dayLoop db rng wm stp fp all d ("spot" :: rest) 1 [] us ur
        = dayLoop db rng wm stp fp all d rest 2
            ([] ++ [spotItem d 1 s]) (addId us s.id) ur := by
      simp [dayLoop, hc]
    rw [heq] at h
    obtain ⟨suf, hsuf⟩ := (dayLoop_spec db rng wm stp fp all d hall
      rest 2 ([] ++ [spotItem d 1 s]) (addId us s.id) ur).1
    rw [hsuf] at h
    simp at h

theorem usableSpots_empty_mono {all : List Spot} {us us' : List Nat}
    (h : usableSpots us all = []) (hsub : ∀ x ∈ us, x ∈ us') :
    usableSpots us' all = [] := by
  unfold usableSpots at h ⊢
  rw [List.filter_eq_nil_iff] at h ⊢
  intro s hs
  have := h s hs
  simp only [Bool.not_eq_true', Bool.not_eq_false, decide_eq_true_eq] at this ⊢
  exact hsub _ this

theorem daysLoop_stuck (db : Database) (rng : Nat → Nat)
    (geo : ℚ → ℚ → ℚ → ℚ → ℚ) (wm : String) (stp fp : Option String)
    (all : List Spot) (rest0 : List String) :
    ∀ (days : List Nat) (full : List Item) (us ur : List Nat),
      usableSpots us all = [] →
      daysLoop db rng geo wm stp fp all ("spot" :: rest0) days full us ur = full := by
  intro days
  induction days with
  | nil => intro full us ur _; rfl
  | cons d days' ih =>
    intro full us ur h
    have hr := dayLoop_empty_pool_eq db rng wm stp fp all d rest0 us ur h
    simp only [daysLoop, hr]
    simpa using ih full us ur h

theorem daysLoop_acc_mono (db : Database) (rng : Nat → Nat)
    (geo : ℚ → ℚ → ℚ → ℚ → ℚ) (wm : String) (stp fp : Option String)
    (all : List Spot) (pattern : List String) :
    ∀ (days : List Nat) (full : List Item) (us ur : List Nat) (x : Item),
      x ∈ full →
      x ∈ daysLoop db rng geo wm stp fp all pattern days full us ur := by
  intro days
  induction days with
  | nil => intro full us ur x hx; exact hx
  | cons d days' ih =>
    intro full us ur x hx
    simp only [daysLoop]
    apply ih
    split
    · exact hx
    · exact List.mem_append_left _ hx

theorem usedInv_append_fill {geo : ℚ → ℚ → ℚ → ℚ → ℚ} {db : Database}
    {full X : List Item} {us ur : List Nat}
    (h : UsedInv (full ++ X) us ur) :
    UsedInv (full ++ _fill_distances_for_day geo db X) us ur := by
  obtain ⟨h1, h2, h3, h4⟩ := h
  have hps : (spotIds (full ++ _fill_distances_for_day geo db X)).Perm
      (spotIds (full ++ X)) := by
    rw [spotIds_append, spotIds_append]
    exact (fill_day_spotIds_perm geo db X).append_left (spotIds full)
  have hpr : (restIds (full ++ _fill_distances_for_day geo db X)).Perm
      (restIds (full ++ X)) := by
    rw [restIds_append, restIds_append]
    exact (fill_day_restIds_perm geo db X).append_left (restIds full)
  exact ⟨hps.nodup_iff.mpr h1, fun x hx => h2 x (hps.mem_iff.mp hx),
    hpr.nodup_iff.mpr h3, fun x hx => h4 x (hpr.mem_iff.mp hx)⟩

theorem daysLoop_inv (db : Database) (rng : Nat → Nat)
    (geo : ℚ → ℚ → ℚ → ℚ → ℚ) (wm : String) (stp fp : Option String)
    (all : List Spot) (pattern : List String)
    (hall : ∀ s ∈ all, s ∈ db.spots) :
    ∀ (days : List Nat) (full : List Item) (us ur : List Nat),
      UsedInv full us ur →
      ∃ us' ur',
        UsedInv (daysLoop db rng geo wm stp fp all pattern days full us ur) us' ur' := by
  intro days
  induction days with
  | nil => intro full us ur h; exact ⟨us, ur, h⟩
  | cons d days' ih =>
    intro full us ur h
    have hinv := (dayLoop_spec db rng wm stp fp all d hall pattern 1 [] us ur).2.2.2.2
      full (by simpa using h)
    simp only [daysLoop]
    split
    · next hempty =>
      apply ih
      have hnil : (dayLoop db rng wm stp fp all d pattern 1 [] us ur).1 = [] :=
        List.isEmpty_iff.mp hempty
      rw [hnil] at hinv
      simpa using hinv
    · exact ih _ _ _ (usedInv_append_fill hinv)

theorem daysLoop_days_sub (db : Database) (rng : Nat → Nat)
    (geo : ℚ → ℚ → ℚ → ℚ → ℚ) (wm : String) (stp fp : Option String)
    (all : List Spot) (pattern : List String)
    (hall : ∀ s ∈ all, s ∈ db.spots) :
    ∀ (days : List Nat) (full : List Item) (us ur : List Nat) (x : Nat),
      x ∈ daysOf (daysLoop db rng geo wm stp fp all pattern days full us ur) →
      x ∈ daysOf full ∨ x ∈ days := by
  intro days
  induction days with
  | nil => intro full us ur x hx; exact Or.inl hx
  | cons d days' ih =>
    intro full us ur x hx
    simp only [daysLoop] at hx
    by_cases hsplit : (dayLoop db rng wm stp fp all d pattern 1 [] us ur).1.isEmpty = true
    · rw [if_pos hsplit] at hx
      rcases ih _ _ _ _ hx with h | h
      · exact Or.inl h
      · exact Or.inr (List.mem_cons_of_mem d h)
    · rw [if_neg hsplit] at hx
      rcases ih _ _ _ _ hx with h | h
      · unfold daysOf at h
        rw [List.map_append] at h
        rcases List.mem_append.mp h with h | h
        · exact Or.inl h
        · obtain ⟨i, hi, hix⟩ := List.mem_map.mp h
          have hday : ∀ j ∈ (dayLoop db rng wm stp fp all d pattern 1 [] us ur).1,
              ItemWF db j ∧ j.day = d :=
            (dayLoop_spec db rng wm stp fp all d hall pattern 1 [] us ur).2.2.2.1
              (by intro j hj; simp at hj)
          have : i.day = d :=
            fill_day_day_eq (fun j hj => (hday j hj).2) i hi
          rw [← hix, this]
          exact Or.inr (List.mem_cons_self d days')
      · exact Or.inr (List.mem_cons_of_mem d h)

theorem daysLoop_dayOk (db : Database) (rng : Nat → Nat)
    (geo : ℚ → ℚ → ℚ → ℚ → ℚ) (wm : String) (stp fp : Option String)
    (all : List Spot) (pattern : List String)
    (hall : ∀ s ∈ all, s ∈ db.spots)
    (hsr : EdgesSRNonneg db) (hss : EdgesSSNonneg db) (hg : GeoNonneg geo) :
    ∀ (days : List Nat) (full : List Item) (us ur : List Nat),
      days.Nodup →
      (∀ i ∈ full, i.day ∉ days) →
      (∀ dd, dayStepsOk geo db (filterDay full dd)) →
      ∀ dd, dayStepsOk geo db
        (filterDay (daysLoop db rng geo wm stp fp all pattern days full us ur) dd) := by
  intro days
  induction days with
  | nil => intro full us ur _ _ hok dd; exact hok dd
  | cons e days' ih =>
    intro full us ur hnd hfresh hok dd
    have hnd' : days'.Nodup := (List.nodup_cons.mp hnd).2
    have hene : e ∉ days' := (List.nodup_cons.mp hnd).1
    simp only [daysLoop]
    by_cases hsplit : (dayLoop db rng wm stp fp all e pattern 1 [] us ur).1.isEmpty = true
    · rw [if_pos hsplit]
      refine ih _ _ _ hnd' ?_ hok dd
      intro i hi
      exact fun hc => hfresh i hi (List.mem_cons_of_mem e hc)
    · rw [if_neg hsplit]
      have hday : ∀ j ∈ (dayLoop db rng wm stp fp all e pattern 1 [] us ur).1,
          ItemWF db j ∧ j.day = e :=
        (dayLoop_spec db rng wm stp fp all e hall pattern 1 [] us ur).2.2.2.1
          (by intro j hj; simp at hj)
      have hblock_day : ∀ i ∈ _fill_distances_for_day geo db
          (dayLoop db rng wm stp fp all e pattern 1 [] us ur).1, i.day = e :=
        fill_day_day_eq (fun j hj => (hday j hj).2)
      refine ih _ _ _ hnd' ?_ ?_ dd
      · intro i hi
        rcases List.mem_append.mp hi with hi | hi
        · exact fun hc => hfresh i hi (List.mem_cons_of_mem e hc)
        · rw [hblock_day i hi]
          exact hene
      · intro dd'
        unfold filterDay
        rw [List.filter_append]
        by_cases hde : dd' = e
        · subst hde
          have hfull : full.filter (fun i => decide (i.day = dd')) = [] := by
            rw [List.filter_eq_nil_iff]
            intro i hi
            simp only [decide_eq_true_eq]
            exact fun hc => hfresh i hi (hc ▸ List.mem_cons_self dd' days')
          have hblock : (_fill_distances_for_day geo db
                (dayLoop db rng wm stp fp all dd' pattern 1 [] us ur).1).filter
              (fun i => decide (i.day = dd'))
              = _fill_distances_for_day geo db
                (dayLoop db rng wm stp fp all dd' pattern 1 [] us ur).1 := by
            rw [List.filter_eq_self]
            intro i hi
            simp only [decide_eq_true_eq]
            exact hblock_day i hi
          rw [hfull, hblock, List.nil_append]
          exact dayStepsOk_fill hsr hss hg (fun j hj => (hday j hj).1)
        · have hblock : (_fill_distances_for_day geo db
                (dayLoop db rng wm stp fp all e pattern 1 [] us ur).1).filter
              (fun i => decide (i.day = dd')) = [] := by
            rw [List.filter_eq_nil_iff]
            intro i hi
            simp only [decide_eq_true_eq]
            rw [hblock_day i hi]
            exact fun hc => hde hc.symm
          rw [hblock, List.append_nil]
          exact hok dd'

theorem daysLoop_contig (db : Database) (rng : Nat → Nat)
    (geo : ℚ → ℚ → ℚ → ℚ → ℚ) (wm : String) (stp fp : Option String)
    (all : List Spot) (rest0 : List String)
    (hall : ∀ s ∈ all, s ∈ db.spots) :
    ∀ (k a : Nat) (full : List Item) (us ur : List Nat) (d1 d2 : Nat),
      d2 ∈ daysOf (daysLoop db rng geo wm stp fp all ("spot" :: rest0)
        (List.range' a k) full us ur) →
      d2 ∉ daysOf full → a ≤ d1 → d1 ≤ d2 →
      d1 ∈ daysOf (daysLoop db rng geo wm stp fp all ("spot" :: rest0)
        (List.range' a k) full us ur) := by
  intro k
  induction k with
  | zero =>
    intro a full us ur d1 d2 h2 h3 _ _
    simp only [List.range'_zero, daysLoop] at h2
    exact absurd h2 h3
  | succ k ihk =>
    intro a full us ur d1 d2 h2 h3 h4 h5
    rw [List.range'_succ] at h2 ⊢
    simp only [daysLoop] at h2 ⊢
    by_cases hempty :
        (dayLoop db rng wm stp fp all a ("spot" :: rest0) 1 [] us ur).1.isEmpty = true
    · obtain ⟨hpool, hstate⟩ := dayLoop_empty_state db rng wm stp fp all a rest0
        us ur hall (List.isEmpty_iff.mp hempty)
      rw [hstate] at h2 ⊢
      simp only [List.isEmpty_nil, if_true] at h2 ⊢
      rw [daysLoop_stuck db rng geo wm stp fp all rest0 _ _ _ _ hpool] at h2
      exact absurd h2 h3
    · rw [if_neg hempty] at h2 ⊢
      have hday : ∀ j ∈ (dayLoop db rng wm stp fp all a ("spot" :: rest0) 1 [] us ur).1,
          ItemWF db j ∧ j.day = a :=
        (dayLoop_spec db rng wm stp fp all a hall ("spot" :: rest0) 1 [] us ur).2.2.2.1
          (by intro j hj; simp at hj)
      have hblock_day : ∀ i ∈ _fill_distances_for_day geo db
          (dayLoop db rng wm stp fp all a ("spot" :: rest0) 1 [] us ur).1, i.day = a :=
        fill_day_day_eq (fun j hj => (hday j hj).2)
      rcases Nat.eq_or_lt_of_le h4 with heq | hlt
      · -- d1 = a : the day-a block is non-empty, so a occurs in the result
        have hne : (dayLoop db rng wm stp fp all a ("spot" :: rest0) 1 [] us ur).1 ≠ [] := by
          intro hc
          rw [hc] at hempty
          simp at hempty
        have hfne : _fill_distances_for_day geo db
            (dayLoop db rng wm stp fp all a ("spot" :: rest0) 1 [] us ur).1 ≠ [] :=
          fill_day_ne_nil hne
        obtain ⟨i, hi⟩ := List.exists_mem_of_ne_nil _ hfne
        have hmem : i ∈ daysLoop db rng geo wm stp fp all ("spot" :: rest0)
            (List.range' (a + 1) k)
            (full ++ _fill_distances_for_day geo db
              (dayLoop db rng wm stp fp all a ("spot" :: rest0) 1 [] us ur).1)
            (dayLoop db rng wm stp fp all a ("spot" :: rest0) 1 [] us ur).2.1
            (dayLoop db rng wm stp fp all a ("spot" :: rest0) 1 [] us ur).2.2 :=
          daysLoop_acc_mono db rng geo wm stp fp all _ _ _ _ _ i
            (List.mem_append_right full hi)
        have : d1 = i.day := by rw [hblock_day i hi, ← heq]
        rw [this]
        exact List.mem_map_of_mem Item.day hmem
      · -- a < d1 : recurse into the later days
        refine ihk (a + 1) _ _ _ d1 d2 h2 ?_ hlt h5
        intro hc
        unfold daysOf at hc
        rw [List.map_append] at hc
        rcases List.mem_append.mp hc with hc | hc
        · exact h3 hc
        · obtain ⟨i, hi, hix⟩ := List.mem_map.mp hc
          rw [hblock_day i hi] at hix
          omega

theorem haversineA_self (lat lon : ℝ) : haversineA lat lon lat lon = 0 := by
  unfold haversineA radians
  simp

theorem haversineA_symm (lat1 lon1 lat2 lon2 : ℝ) :
    haversineA lat1 lon1 lat2 lon2 = haversineA lat2 lon2 lat1 lon1 := by
  unfold haversineA radians
  have e1 : (lat1 - lat2) * (Real.pi / 180) / 2
      = -((lat2 - lat1) * (Real.pi / 180) / 2) := by ring
  have e2 : (lon1 - lon2) * (Real.pi / 180) / 2
      = -((lon2 - lon1) * (Real.pi / 180) / 2) := by ring
  rw [e1, e2, Real.sin_neg, Real.sin_neg, neg_sq, neg_sq]
  ring

theorem atan2_zero_one : atan2 0 1 = 0 := by
  unfold atan2
  rw [if_pos one_pos]
  simp

theorem atan2_nonneg {y x : ℝ} (hy : 0 ≤ y) (hx : 0 ≤ x) : 0 ≤ atan2 y x := by
  unfold atan2
  by_cases h1 : 0 < x
  · rw [if_pos h1]
    have := Real.arctan_strictMono.monotone (div_nonneg hy (le_of_lt h1))
    rwa [Real.arctan_zero] at this
  · rw [if_neg h1]
    have hx0 : x = 0 := le_antisymm (not_lt.mp h1) hx
    rw [if_neg (by rintro ⟨h, _⟩; exact absurd h (not_lt.mpr hx))]
    rw [if_neg (by rintro ⟨h, _⟩; exact absurd h (not_lt.mpr hx))]
    by_cases h2 : x = 0 ∧ 0 < y
    · rw [if_pos h2]
      exact le_of_lt (by positivity)
    · rw [if_neg h2]
      rw [if_neg (by rintro ⟨_, h⟩; exact absurd h (not_lt.mpr hy))]

/-- The great-circle distance is never negative; this justifies the
`GeoNonneg` hypothesis placed on the `geo` parameter of the schedule
pipeline. -/
theorem haversine_nonneg (lat1 lon1 lat2 lon2 : ℝ) :
    0 ≤ haversine lat1 lon1 lat2 lon2 := by
  unfold haversine
  have h := atan2_nonneg (Real.sqrt_nonneg (haversineA lat1 lon1 lat2 lon2))
    (Real.sqrt_nonneg (1 - haversineA lat1 lon1 lat2 lon2))
  positivity

theorem patternFor_head (q : Option String) :
    ∃ rest, patternFor q = "spot" :: rest := by
  unfold patternFor
  split
  · exact ⟨_, rfl⟩
  · exact ⟨_, rfl⟩

/-- The configured day count of a traveler's trip (0 for an unknown
traveler): the duration heuristic applied to the stored duration text. -/
def tripDays (db : Database) (traveler_id : Nat) : Nat :=
  match _get_traveler_profile db traveler_id with
  | some p => nightsOf (p.duration.getD "")
  | none => 0

theorem generate_eq_daysLoop {db : Database} {rng : Nat → Nat}
    {geo : ℚ → ℚ → ℚ → ℚ → ℚ} {traveler_id : Nat} {weather_mode : String}
    {schedule_pref : Option String} {p : TravelerProfile}
    (hp : _get_traveler_profile db traveler_id = some p) :
    generate_schedule_for_weather db rng geo traveler_id weather_mode schedule_pref
      = (if (_get_all_spots_for_weather db weather_mode).isEmpty then []
         else daysLoop db rng geo weather_mode p.preferred_style p.preferred_food
           (_get_all_spots_for_weather db weather_mode)
           (patternFor (effectiveSchedulePref p.schedule_preference schedule_pref))
           (List.range' 1 (nightsOf (p.duration.getD ""))) [] [] []) := by
  unfold generate_schedule_for_weather
  rw [hp]

/-- A random oracle that always draws index 0 (one concrete instance of the
`random.choice` oracle). -/
def rngZero : Nat → Nat := fun _ => 0

/-- A concrete geographic fallback (used to instantiate theorems at concrete
inputs). -/
def geoZero : ℚ → ℚ → ℚ → ℚ → ℚ := fun _ _ _ _ => 0

/-- A database with no rows at all. -/
def dbEmpty : Database := ⟨[], [], [], [], []⟩

/-- Concrete fixture rows for instantiating theorems. -/
def spotW : Spot := ⟨1, "폭포", some "자연 폭포", 4, "실내", 33, 126, 10⟩

def mealW : Restaurant := ⟨1, "밥집", "일반음식점", "한식", 5, 33, 126⟩

def cafeW : Restaurant := ⟨2, "카페집", "휴게음식점", "카페", 4, 33, 126⟩

def profW : TravelerProfile := ⟨1, none, some "빼곡한 일정 선호", none, none⟩

def dbW : Database :=
  ⟨[spotW], [mealW, cafeW], [⟨1, 1, none⟩, ⟨1, 2, none⟩], [], [profW]⟩

def dbC2 : Database :=
  ⟨[spotW], [mealW, ⟨3, "횟집", "일반음식점", "횟집 생선", 4, 33, 126⟩],
    [⟨1, 1, some 1⟩, ⟨1, 3, some 1⟩], [], []⟩

def rowC4 : ScheduleRow := ⟨1, none, none, 1, 0, "rainy", 0⟩

def itemC4 : Item := ⟨1, 1, "spot", some 5, some "폭포", none, none, 4, none⟩

/-- C9: for all coordinate pairs `a` and `b`, the great-circle distance
satisfies `distance(a,a) = 0` and `distance(a,b) = distance(b,a)`. -/
theorem c9_haversine_self_and_symm (lat1 lon1 lat2 lon2 : ℝ) :
    haversine lat1 lon1 lat1 lon1 = 0
    ∧ haversine lat1 lon1 lat2 lon2 = haversine lat2 lon2 lat1 lon1 := by
  constructor
  · unfold haversine
    rw [haversineA_self, Real.sqrt_zero, sub_zero, Real.sqrt_one, atan2_zero_one]
    ring
  · unfold haversine
    rw [haversineA_symm]

/-- C3 counterexample: the duration text `"3일 4일"` contains `"3일"`, yet
the day count is 3, not the 2 the claim assigns to any text containing
`"3일"` (the `"4일"` test runs after the `"3일"` test and overrides it). -/
theorem c3_day_count_counterexample :
    strContains ("3일 4일") ("3일") = true
    ∧ nightsOf ("3일 4일") = 3
    ∧ nightsOf ("3일 4일") ≠ 2 := by decide

/-- C3 amended: the day count is 3 when the duration text contains `"4일"`,
otherwise 2 when it contains `"3일"`, otherwise 1; and it is never below
1. -/
theorem c3_day_count_amended (s : String) :
    nightsOf s = (if strContains s ("4일") = true then 3
      else if strContains s ("3일") = true then 2 else 1)
    ∧ 1 ≤ nightsOf s := by
  unfold nightsOf
  cases h4 : strContains s ("4일") <;> cases h3 : strContains s ("3일") <;>
    simp [h3, h4]

/-- C2 counterexample: the meal lookup's keyword table is keyed by exact
equality of the whole preference text, not by substring containment: the
text `"해산물"` (which contains `"해산물"`) yields the empty keyword set,
`"카페 위주"` yields no keywords either (there is no cafe row in the meal
table), and on a concrete database the preference `"해산물"` therefore
selects the unfiltered top-rated general eatery (id 1, Korean cuisine)
instead of the seafood keyword match (id 3). -/
theorem c2_keyword_table_counterexample :
    strContains ("해산물") ("해산물") = true
    ∧ keyword_map_meal (some ("해산물")) = []
    ∧ keyword_map_meal (some ("해산물")) ≠ ["해산물", "횟집", "생선"]
    ∧ keyword_map_meal (some ("카페 위주")) = []
    ∧ (_get_restaurant_for_spot dbC2 1 (some ("해산물")) []).map
        RestRow.restaurant_id = some 1 := by decide

/-- C2 amended: the meal lookup derives its keywords by exact match of the
whole stored preference text against the four-row table (`한식 위주 음식`,
`일식 위주 음식`, `중식 위주 음식`, `해산물 위주 음식`); there is no cafe
row; every other (or absent) preference yields the empty keyword set, under
which the first-tier query applies no keyword filter at all (it coincides
with the lookup for an absent preference). -/
theorem c2_keyword_table_amended (db : Database) (sid : Nat)
    (excl : List Nat) (p : Option String)
    (hp : p ∉ [some ("한식 위주 음식"), some ("일식 위주 음식"),
      some ("중식 위주 음식"), some ("해산물 위주 음식")]) :
    keyword_map_meal (some ("한식 위주 음식")) = ["한식"]
    ∧ keyword_map_meal (some ("일식 위주 음식")) = ["일식"]
    ∧ keyword_map_meal (some ("중식 위주 음식")) = ["중식"]
    ∧ keyword_map_meal (some ("해산물 위주 음식")) = ["해산물", "횟집", "생선"]
    ∧ keyword_map_meal p = []
    ∧ _get_restaurant_for_spot db sid p excl
        = _get_restaurant_for_spot db sid none excl := by
  simp only [List.mem_cons, List.not_mem_nil, or_false] at hp
  push_neg at hp
  obtain ⟨h1, h2, h3, h4⟩ := hp
  have hk : keyword_map_meal p = [] := by
    unfold keyword_map_meal
    rw [if_neg h1, if_neg h2, if_neg h3, if_neg h4]
  refine ⟨rfl, rfl, rfl, rfl, hk, ?_⟩
  unfold _get_restaurant_for_spot
  rw [hk]
  rfl

/-- C2 witness: the amended statement instantiated at the preference text
`"양식"` on a concrete database. -/
theorem c2_keyword_table_witness :
    keyword_map_meal (some ("한식 위주 음식")) = ["한식"]
    ∧ keyword_map_meal (some ("일식 위주 음식")) = ["일식"]
    ∧ keyword_map_meal (some ("중식 위주 음식")) = ["중식"]
    ∧ keyword_map_meal (some ("해산물 위주 음식")) = ["해산물", "횟집", "생선"]
    ∧ keyword_map_meal (some ("양식")) = []
    ∧ _get_restaurant_for_spot dbC2 1 (some ("양식")) []
        = _get_restaurant_for_spot dbC2 1 none [] :=
  c2_keyword_table_amended dbC2 1 [] (some ("양식")) (by decide)

/-- C5 counterexample: for equal spot ids the spot-to-spot resolver returns
`0.0` immediately, even on a database where the spot does not exist and no
edge exists — the claim requires `null` when an entity cannot be found. -/
theorem c5_distance_resolution_counterexample :
    dbEmpty.spots = [] ∧ dbEmpty.spotSpotMap = []
    ∧ _get_spot_by_id dbEmpty 7 = none
    ∧ _calc_distance_spot_to_spot geoZero dbEmpty 7 7 = some 0 := by decide

/-- C5 amended: spot→restaurant resolves the precomputed edge first (a
`NULL` edge value falls through), then both coordinates, else `null`;
restaurant→spot delegates symmetrically to spot→restaurant; spot→spot
returns `0.0` for equal ids before any lookup (even when the spot is
absent), else edge (either orientation) / coordinates / `null`; and
restaurant→restaurant has no edge lookup at all: `0.0` for equal ids, else
coordinates, else `null`. -/
theorem c5_distance_resolution_amended (geo : ℚ → ℚ → ℚ → ℚ → ℚ)
    (db : Database) (sid rid a b ra rb : Nat) :
    _calc_distance_spot_to_restaurant geo db sid rid
      = (match edgeSR db sid rid with
         | some d => some d
         | none =>
           match _get_spot_by_id db sid, _get_restaurant_by_id db rid with
           | some s, some r => some (geo s.lat s.lon r.lat r.lon)
           | _, _ => none)
    ∧ _calc_distance_restaurant_to_spot geo db rid sid
      = _calc_distance_spot_to_restaurant geo db sid rid
    ∧ _calc_distance_spot_to_spot geo db a b
      = (if a = b then some 0
         else match edgeSS db a b with
           | some d => some d
           | none =>
             match _get_spot_by_id db a, _get_spot_by_id db b with
             | some s1, some s2 => some (geo s1.lat s1.lon s2.lat s2.lon)
             | _, _ => none)
    ∧ _calc_distance_restaurant_to_restaurant geo db ra rb
      = (if ra = rb then some 0
         else match _get_restaurant_by_id db ra, _get_restaurant_by_id db rb with
           | some r1, some r2 => some (geo r1.lat r1.lon r2.lat r2.lon)
           | _, _ => none) := by
  refine ⟨?_, rfl, ?_, ?_⟩
  · unfold _calc_distance_spot_to_restaurant
    cases edgeSR db sid rid with
    | some d => rfl
    | none =>
      cases _get_spot_by_id db sid with
      | none => rfl
      | some s =>
        cases _get_restaurant_by_id db rid with
        | none => rfl
        | some r => rfl
  · unfold _calc_distance_spot_to_spot
    by_cases hab : a = b
    · rw [if_pos hab, if_pos hab]
    · rw [if_neg hab, if_neg hab]
      cases edgeSS db a b with
      | some d => rfl
      | none =>
        cases _get_spot_by_id db a with
        | none => rfl
        | some s1 =>
          cases _get_spot_by_id db b with
          | none => rfl
          | some s2 => rfl
  · unfold _calc_distance_restaurant_to_restaurant
    by_cases hab : ra = rb
    · rw [if_pos hab, if_pos hab]
    · rw [if_neg hab, if_neg hab]
      cases _get_restaurant_by_id db ra with
      | none => rfl
      | some r1 =>
        cases _get_restaurant_by_id db rb with
        | none => rfl
        | some r2 => rfl

/-- C8: for every traveler id and weather mode the generator returns the
empty itinerary — it does not raise — when the traveler has no stored
profile or the weather-filtered candidate pool is empty. -/
theorem c8_empty_itinerary_on_missing_inputs (db : Database) (rng : Nat → Nat)
    (geo : ℚ → ℚ → ℚ → ℚ → ℚ) (traveler_id : Nat) (weather_mode : String)
    (schedule_pref : Option String)
    (h : _get_traveler_profile db traveler_id = none
      ∨ _get_all_spots_for_weather db weather_mode = []) :
    generate_schedule_for_weather db rng geo traveler_id weather_mode
      schedule_pref = [] := by
  rcases h with h | h
  · unfold generate_schedule_for_weather
    rw [h]
  · cases hp : _get_traveler_profile db traveler_id with
    | none =>
      unfold generate_schedule_for_weather
      rw [hp]
    | some p =>
      rw [generate_eq_daysLoop hp, if_pos (List.isEmpty_iff.mpr h)]

/-- C8 witness: a database with no rows (unknown traveler) yields the empty
itinerary. -/
theorem c8_empty_itinerary_witness :
    generate_schedule_for_weather dbEmpty rngZero geoZero 1 ("rainy") none = [] :=
  c8_empty_itinerary_on_missing_inputs dbEmpty rngZero geoZero 1 ("rainy") none
    (Or.inl rfl)

/-- C7: the builder walks the fixed per-day pattern selected by the
effective pacing preference — a truthy profile-stored value overrides the
request argument — where the packed literal selects the 7-step pattern and
anything else the 5-step pattern. -/
theorem c7_pattern_selection (db : Database) (rng : Nat → Nat)
    (geo : ℚ → ℚ → ℚ → ℚ → ℚ) (traveler_id : Nat) (weather_mode : String)
    (schedule_pref : Option String) (p : TravelerProfile) (q : Option String)
    (s : String)
    (hp : _get_traveler_profile db traveler_id = some p)
    (hq : q ≠ some "빼곡한 일정 선호")
    (hs : p.schedule_preference = some s) (hs2 : s ≠ "") :
    patternFor (some "빼곡한 일정 선호")
        = ["spot", "restaurant", "cafe", "spot", "spot", "restaurant", "spot"]
    ∧ patternFor q = ["spot", "restaurant", "cafe", "spot", "restaurant"]
    ∧ effectiveSchedulePref p.schedule_preference schedule_pref = some s
    ∧ generate_schedule_for_weather db rng geo traveler_id weather_mode
          schedule_pref
        = (if (_get_all_spots_for_weather db weather_mode).isEmpty then []
           else daysLoop db rng geo weather_mode p.preferred_style
             p.preferred_food (_get_all_spots_for_weather db weather_mode)
             (patternFor (effectiveSchedulePref p.schedule_preference schedule_pref))
             (List.range' 1 (nightsOf (p.duration.getD ""))) [] [] []) := by
  refine ⟨rfl, ?_, ?_, generate_eq_daysLoop hp⟩
  · unfold patternFor
    rw [if_neg hq]
  · unfold effectiveSchedulePref
    rw [hs]
    show (if s = "" then schedule_pref else some s) = some s
    rw [if_neg hs2]

/-- C7 witness: a stored packed preference overrides an absent request
argument and selects the 7-step pattern on a concrete database. -/
theorem c7_pattern_selection_witness :
    patternFor (some "빼곡한 일정 선호")
        = ["spot", "restaurant", "cafe", "spot", "spot", "restaurant", "spot"]
    ∧ patternFor none = ["spot", "restaurant", "cafe", "spot", "restaurant"]
    ∧ effectiveSchedulePref profW.schedule_preference none
        = some "빼곡한 일정 선호"
    ∧ generate_schedule_for_weather dbW rngZero geoZero 1 ("not_rainy") none
        = (if (_get_all_spots_for_weather dbW ("not_rainy")).isEmpty then []
           else daysLoop dbW rngZero geoZero ("not_rainy") profW.preferred_style
             profW.preferred_food (_get_all_spots_for_weather dbW ("not_rainy"))
             (patternFor (effectiveSchedulePref profW.schedule_preference none))
             (List.range' 1 (nightsOf (profW.duration.getD ""))) [] [] []) :=
  c7_pattern_selection dbW rngZero geoZero 1 ("not_rainy") none profW none
    ("빼곡한 일정 선호") rfl (by decide) rfl (by decide)

/-- C1: in every generated itinerary no spot id occurs in two spot steps
and no restaurant id occurs in two meal-or-cafe steps (meal and cafe share
one exclusion set spanning all days), for every database, random draw,
traveler, weather mode and pacing argument. -/
theorem c1_no_duplicate_ids (db : Database) (rng : Nat → Nat)
    (geo : ℚ → ℚ → ℚ → ℚ → ℚ) (traveler_id : Nat) (weather_mode : String)
    (schedule_pref : Option String) :
    (spotIds (generate_schedule_for_weather db rng geo traveler_id weather_mode
        schedule_pref)).Nodup
    ∧ (restIds (generate_schedule_for_weather db rng geo traveler_id weather_mode
        schedule_pref)).Nodup := by
  cases hp : _get_traveler_profile db traveler_id with
  | none =>
    unfold generate_schedule_for_weather
    rw [hp]
    simp [spotIds, restIds]
  | some p =>
    rw [generate_eq_daysLoop hp]
    by_cases he : (_get_all_spots_for_weather db weather_mode).isEmpty
    · rw [if_pos he]
      simp [spotIds, restIds]
    · rw [if_neg he]
      obtain ⟨us', ur', hinv⟩ := daysLoop_inv db rng geo weather_mode
        p.preferred_style p.preferred_food _ _
        (fun s hs => mem_all_spots_for_weather hs)
        (List.range' 1 (nightsOf (p.duration.getD ""))) [] [] [] usedInv_nil
      exact ⟨hinv.1, hinv.2.2.1⟩

/-- C6: in every generated itinerary, each day's first step stores no
distance and every later step of the day stores the non-negative leg
distance computed from the immediately preceding step of the same day —
given non-negative stored edge distances and a non-negative geographic
fallback. -/
theorem c6_day_distance_discipline (db : Database) (rng : Nat → Nat)
    (geo : ℚ → ℚ → ℚ → ℚ → ℚ) (traveler_id : Nat) (weather_mode : String)
    (schedule_pref : Option String)
    (hsr : EdgesSRNonneg db) (hss : EdgesSSNonneg db) (hg : GeoNonneg geo)
    (d : Nat) :
    dayStepsOk geo db
      (filterDay (generate_schedule_for_weather db rng geo traveler_id
        weather_mode schedule_pref) d) := by
  cases hp : _get_traveler_profile db traveler_id with
  | none =>
    unfold generate_schedule_for_weather
    rw [hp]
    simp [filterDay, dayStepsOk]
  | some p =>
    rw [generate_eq_daysLoop hp]
    by_cases he : (_get_all_spots_for_weather db weather_mode).isEmpty
    · rw [if_pos he]
      simp [filterDay, dayStepsOk]
    · rw [if_neg he]
      exact daysLoop_dayOk db rng geo weather_mode p.preferred_style
        p.preferred_food _ _ (fun s hs => mem_all_spots_for_weather hs)
        hsr hss hg (List.range' 1 (nightsOf (p.duration.getD ""))) [] [] []
        (List.nodup_range' 1 _)
        (by intro i hi; simp at hi)
        (by intro dd; simp [filterDay, dayStepsOk]) d

/-- C6 witness: the distance discipline of day 1 of a concrete generated
itinerary. -/
theorem c6_day_distance_discipline_witness :
    dayStepsOk geoZero dbW
      (filterDay (generate_schedule_for_weather dbW rngZero geoZero 1
        ("not_rainy") none) 1) :=
  c6_day_distance_discipline dbW rngZero geoZero 1 ("not_rainy") none
    (by intro m hm q hq
        simp [dbW] at hm
        rcases hm with h | h <;> subst h <;> simp at hq)
    (by intro m hm; simp [dbW] at hm)
    (by intro a b c d; exact le_refl 0) 1

/-- C10: the day numbers occurring in a generated itinerary form a
contiguous prefix `1..k` of the configured day count: every occurring day
is at most the parsed trip length, and every positive day below an
occurring day also occurs (once a day produces no steps the global pool is
exhausted, so no later day produces steps either). -/
theorem c10_contiguous_days (db : Database) (rng : Nat → Nat)
    (geo : ℚ → ℚ → ℚ → ℚ → ℚ) (traveler_id : Nat) (weather_mode : String)
    (schedule_pref : Option String) (d1 d2 : Nat)
    (h1 : 1 ≤ d1) (h12 : d1 ≤ d2)
    (h2 : d2 ∈ daysOf (generate_schedule_for_weather db rng geo traveler_id
      weather_mode schedule_pref)) :
    d2 ≤ tripDays db traveler_id
    ∧ d1 ∈ daysOf (generate_schedule_for_weather db rng geo traveler_id
        weather_mode schedule_pref) := by
  cases hp : _get_traveler_profile db traveler_id with
  | none =>
    exfalso
    unfold generate_schedule_for_weather at h2
    rw [hp] at h2
    simp [daysOf] at h2
  | some p =>
    rw [generate_eq_daysLoop hp] at h2 ⊢
    by_cases he : (_get_all_spots_for_weather db weather_mode).isEmpty
    · rw [if_pos he] at h2
      simp [daysOf] at h2
    · rw [if_neg he] at h2 ⊢
      have hall : ∀ s ∈ _get_all_spots_for_weather db weather_mode,
          s ∈ db.spots := fun s hs => mem_all_spots_for_weather hs
      constructor
      · have hb := daysLoop_days_sub db rng geo weather_mode p.preferred_style
          p.preferred_food _ _ hall
          (List.range' 1 (nightsOf (p.duration.getD ""))) [] [] [] d2 h2
        rcases hb with hb | hb
        · simp [daysOf] at hb
        · have := List.mem_range'_1.mp hb
          have ht : tripDays db traveler_id = nightsOf (p.duration.getD "") := by
            unfold tripDays
            rw [hp]
          rw [ht]
          omega
      · obtain ⟨rest0, hpat⟩ :=
          patternFor_head (effectiveSchedulePref p.schedule_preference schedule_pref)
        rw [hpat] at h2 ⊢
        exact daysLoop_contig db rng geo weather_mode p.preferred_style
          p.preferred_food _ rest0 hall
          (nightsOf (p.duration.getD "")) 1 [] [] [] d1 d2 h2
          (by simp [daysOf]) h1 h12

/-- C10 witness: day 1 occurs in a concrete generated itinerary and is
within the configured day count. -/
theorem c10_contiguous_days_witness :
    1 ≤ tripDays dbW 1
    ∧ 1 ∈ daysOf (generate_schedule_for_weather dbW rngZero geoZero 1
        ("not_rainy") none) :=
  c10_contiguous_days dbW rngZero geoZero 1 ("not_rainy") none 1 1
    (by decide) (by decide) (by decide)

/-- Reference well-formedness of a schedule item handed to the persistence
adapter: a known step kind carrying the id of its kind. -/
def ItemRefWF (i : Item) : Prop :=
  (i.type = "spot" ∨ i.type = "restaurant" ∨ i.type = "cafe")
  ∧ (i.type = "spot" → i.spot_id.isSome)
  ∧ ((i.type = "restaurant" ∨ i.type = "cafe") → i.restaurant_id.isSome)

/-- The per-row contract of the persistence adapter: day-derived visit
date, the step's order, the reference of the step's kind with the other
reference null (exactly one populated), and the distance rounded to two
decimals with `NULL` stored as `0.0`. -/
def RowSpec (today : Int) (item : Item) (r : ScheduleRow) : Prop :=
  r.visit_date = today + (item.day : Int) - 1
  ∧ r.visit_order = item.order
  ∧ (item.type = "spot" → r.place_id = item.spot_id ∧ r.restaurant_id = none)
  ∧ ((item.type = "restaurant" ∨ item.type = "cafe") →
      r.restaurant_id = item.restaurant_id ∧ r.place_id = none)
  ∧ r.distance = (match item.distance_km with | none => 0 | some q => round2 q)
  ∧ ((r.place_id.isSome ∧ r.restaurant_id = none)
      ∨ (r.restaurant_id.isSome ∧ r.place_id = none))

/-- C4 counterexample: a call with an empty itinerary returns 0 without
deleting anything — the previously stored row for the same
(traveler, weather) pair survives, contradicting the claim that every call
deletes all rows of that pair. -/
theorem c4_save_counterexample :
    rowC4.traveler_id = 1 ∧ rowC4.weather = "rainy"
    ∧ _insert_schedule_rows_into_db 0 [rowC4] 1 ("rainy") [] = ([rowC4], 0) := by
  decide

/-- C4 amended: a call with a non-empty itinerary replaces exactly the rows
of the same (traveler, weather) pair — afterwards those rows are precisely
one row per step, rows of other pairs are untouched, the returned count is
the number of steps, and each inserted row satisfies the per-row contract
(date, order, exactly one reference, 2-decimal-rounded distance with null
as 0.0); a call with an empty itinerary returns 0 and leaves the table
untouched. -/
theorem c4_save_amended (today : Int) (table : List ScheduleRow)
    (traveler_id : Nat) (weather_mode : String) (schedule : List Item)
    (hne : schedule ≠ []) (hwf : ∀ i ∈ schedule, ItemRefWF i) :
    (_insert_schedule_rows_into_db today table traveler_id weather_mode
      schedule).2 = schedule.length
    ∧ (_insert_schedule_rows_into_db today table traveler_id weather_mode
        schedule).1.filter (fun r =>
          decide (r.traveler_id = traveler_id) && decide (r.weather = weather_mode))
      = schedule.map (rowOfItem today traveler_id weather_mode)
    ∧ (_insert_schedule_rows_into_db today table traveler_id weather_mode
        schedule).1.filter (fun r =>
          !(decide (r.traveler_id = traveler_id) && decide (r.weather = weather_mode)))
      = table.filter (fun r =>
          !(decide (r.traveler_id = traveler_id) && decide (r.weather = weather_mode)))
    ∧ ∀ item ∈ schedule,
        RowSpec today item (rowOfItem today traveler_id weather_mode item) := by
  have hne' : ¬(schedule.isEmpty = true) := fun hc => hne (List.isEmpty_iff.mp hc)
  unfold _insert_schedule_rows_into_db
  rw [if_neg hne']
  have hnewall : ∀ r ∈ schedule.map (rowOfItem today traveler_id weather_mode),
      (decide (r.traveler_id = traveler_id)
        && decide (r.weather = weather_mode)) = true := by
    intro r hr
    obtain ⟨item, _, rfl⟩ := List.mem_map.mp hr
    simp [rowOfItem]
  refine ⟨by simp, ?_, ?_, ?_⟩
  · rw [List.filter_append, List.filter_filter]
    have h1 : table.filter (fun a =>
        (decide (a.traveler_id = traveler_id) && decide (a.weather = weather_mode))
          && !(decide (a.traveler_id = traveler_id)
            && decide (a.weather = weather_mode))) = [] := by
      simp [Bool.and_not_self]
    rw [h1, List.nil_append]
    exact List.filter_eq_self.mpr hnewall
  · rw [List.filter_append, List.filter_filter]
    have h1 : (schedule.map (rowOfItem today traveler_id weather_mode)).filter
        (fun r => !(decide (r.traveler_id = traveler_id)
          && decide (r.weather = weather_mode))) = [] := by
      rw [List.filter_eq_nil_iff]
      intro r hr
      rw [hnewall r hr]
      simp
    rw [h1, List.append_nil]
    congr 1
    funext a
    cases decide (a.traveler_id = traveler_id) && decide (a.weather = weather_mode) <;>
      simp
  · intro item hitem
    obtain ⟨htype, hsp, hre⟩ := hwf item hitem
    refine ⟨rfl, rfl, ?_, ?_, rfl, ?_⟩
    · intro ht
      constructor
      · show (if item.type = "spot" then item.spot_id else none) = item.spot_id
        rw [if_pos ht]
      · show (if item.type = "restaurant" ∨ item.type = "cafe"
            then item.restaurant_id else none) = none
        rw [if_neg (by rw [ht]; simp)]
    · intro ht
      constructor
      · show (if item.type = "restaurant" ∨ item.type = "cafe"
            then item.restaurant_id else none) = item.restaurant_id
        rw [if_pos ht]
      · show (if item.type = "spot" then item.spot_id else none) = none
        rw [if_neg (by rcases ht with h | h <;> rw [h] <;> simp)]
    · rcases htype with ht | ht
      · left
        constructor
        · show (if item.type = "spot" then item.spot_id else none).isSome
          rw [if_pos ht]
          exact hsp ht
        · show (if item.type = "restaurant" ∨ item.type = "cafe"
              then item.restaurant_id else none) = none
          rw [if_neg (by rw [ht]; simp)]
      · right
        constructor
        · show (if item.type = "restaurant" ∨ item.type = "cafe"
              then item.restaurant_id else none).isSome
          rw [if_pos ht]
          exact hre ht
        · show (if item.type = "spot" then item.spot_id else none) = none
          rw [if_neg (by rcases ht with h | h <;> rw [h] <;> simp)]

/-- C4 witness: the amended statement instantiated with one spot step and a
pre-existing row of a different traveler. -/
theorem c4_save_amended_witness :
    (_insert_schedule_rows_into_db 0 [rowC4] 2 ("rainy") [itemC4]).2
        = [itemC4].length
    ∧ (_insert_schedule_rows_into_db 0 [rowC4] 2 ("rainy") [itemC4]).1.filter
        (fun r => decide (r.traveler_id = 2) && decide (r.weather = "rainy"))
      = [itemC4].map (rowOfItem 0 2 ("rainy"))
    ∧ (_insert_schedule_rows_into_db 0 [rowC4] 2 ("rainy") [itemC4]).1.filter
        (fun r => !(decide (r.traveler_id = 2) && decide (r.weather = "rainy")))
      = [rowC4].filter
        (fun r => !(decide (r.traveler_id = 2) && decide (r.weather = "rainy")))
    ∧ ∀ item ∈ [itemC4], RowSpec 0 item (rowOfItem 0 2 ("rainy") item) :=
  c4_save_amended 0 [rowC4] 2 ("rainy") [itemC4] (by simp)
    (by
      intro i hi
      simp only [List.mem_singleton] at hi
      subst hi
      refine ⟨Or.inl rfl, fun _ => rfl, fun h => ?_⟩
      rcases h with h | h <;> simp [itemC4] at h)
